import Mathlib

/-!
Verification development for the nano-banana-render provider/dispatch core.

Each Python source function relevant to the checked properties is embedded
as an executable Lean definition.  Machine integers are modelled as `Int`,
Python floats as exact rationals (`Rat`); Python's `round` (banker's
rounding, round-half-to-even) is modelled by `pyRound`.  Python strings are
Lean `String`s.
-/

/- ------------------------------------------------------------------ -/
/- aspect_ratio_utils.py                                              -/
/- ------------------------------------------------------------------ -/

/-- `SUPPORTED_RATIOS` from aspect_ratio_utils.py (fixed iteration order). -/
def SUPPORTED_RATIOS : List String :=
  ["1:1", "2:3", "3:2", "3:4", "4:3", "4:5", "5:4", "9:16", "16:9", "21:9"]

/-- Python's `str.split(sep)` for a one-character separator, on the
character list of a string. -/
def splitOnChar (sep : Char) : List Char → List (List Char)
  | [] => [[]]
  | c :: rest =>
    let r := splitOnChar sep rest
    if c = sep then [] :: r
    else
      match r with
      | [] => [[c]]
      | h :: t => (c :: h) :: t

/-- Python's `int(...)` on a plain decimal digit string (the only shape the
ratio table ever feeds it). -/
def parseDigits (cs : List Char) : Int :=
  if cs ≠ [] ∧ cs.all (fun c => c.isDigit) then
    (cs.foldl (fun n c => n * 10 + (c.toNat - 48)) 0 : Nat)
  else 0

/-- `_parse_ratio`: parse "16:9" to (16, 9).  (Invalid strings, which never
occur for members of `SUPPORTED_RATIOS`, default to 0 instead of raising.) -/
def parseRatio (s : String) : Int × Int :=
  match (splitOnChar (Char.ofNat 58) s.data).map parseDigits with
  | a :: b :: _ => (a, b)
  | _ => (0, 0)

/-- `_ratio_to_float`: numeric value (width/height) of a ratio string. -/
def ratioToFloat (s : String) : ℚ :=
  let p := parseRatio s
  (p.1 : ℚ) / (p.2 : ℚ)

/-- Python's builtin `round` on a (non-negative, in our uses) real number:
round half to even. -/
def pyRound (x : ℚ) : Int :=
  let f := ⌊x⌋
  let frac := x - (f : ℚ)
  if frac < 1/2 then f
  else if 1/2 < frac then f + 1
  else if f % 2 = 0 then f else f + 1

/-- The absolute difference computed in the loop of `find_closest_ratio`. -/
def diffTo (current : ℚ) (rs : String) : ℚ :=
  |current - ratioToFloat rs|

/-- One iteration of the `for ratio_str in SUPPORTED_RATIOS` loop of
`find_closest_ratio`.  The accumulator is `(closest_ratio, min_diff)`,
`none` standing for the initial `float("inf")`. -/
def fcrStep (current : ℚ) (acc : String × Option ℚ) (rs : String) :
    String × Option ℚ :=
  let diff := diffTo current rs
  match acc.2 with
  | none => (rs, some diff)
  | some m => if diff < m then (rs, some diff) else acc

/-- The loop of `find_closest_ratio`, starting from
`closest_ratio = "1:1"`, `min_diff = inf`. -/
def fcrCore (current : ℚ) : String :=
  (SUPPORTED_RATIOS.foldl (fcrStep current) ("1:1", none)).1

/-- Function `find_closest_ratio` from aspect_ratio_utils.py with float
arithmetic idealised as exact real arithmetic.  (`find_closest_ratio_fp`
below is the bit-exact binary64 model of the same function; the two agree
except where rounding moves a comparison, e.g. at exact ties.) -/
def find_closest_ratio (width height : Int) : String :=
  if width ≤ 0 ∨ height ≤ 0 then "1:1"
  else fcrCore ((width : ℚ) / (height : ℚ))

/-- `adjust_resolution_to_ratio` from aspect_ratio_utils.py: keep the longer
edge fixed, recompute the other by rounding. -/
def adjust_resolution_to_ratio (width height : Int) (target : String) :
    Int × Int :=
  let p := parseRatio target
  let t : ℚ := (p.1 : ℚ) / (p.2 : ℚ)
  if height ≤ width then (width, pyRound ((width : ℚ) / t))
  else (pyRound ((height : ℚ) * t), height)

/-- Round a positive rational to the nearest IEEE-754 binary64 value
(round to nearest, ties to even).  `Int.log 2 q` is the binade exponent;
the significand is scaled into `[2^52, 2^53)` and rounded with `pyRound`
(Python's `round`, also half-to-even).  The exponent is unbounded, so this
is binary64 exactly, away from overflow and subnormal territory (neither
is reachable from the quotients of realizable image dimensions). -/
def floatRoundPos (q : ℚ) : ℚ :=
  let e : ℤ := Int.log 2 q
  ((pyRound (q * (2:ℚ) ^ ((52:ℤ) - e)) : ℤ) : ℚ) * (2:ℚ) ^ (e - (52:ℤ))

/-- Round any rational to the nearest binary64 value. -/
def floatRound (q : ℚ) : ℚ :=
  if q = 0 then 0
  else if 0 < q then floatRoundPos q
  else -floatRoundPos (-q)

/-- Value of `_ratio_to_float` as the Python float it actually produces:
the binary64 rounding of the exact ratio value. -/
def ratioToFloatFP (s : String) : ℚ :=
  floatRound (ratioToFloat s)

/-- The absolute difference computed by the loop of `find_closest_ratio`
in float arithmetic: binary64 subtraction, then (exact) `abs`. -/
def diffToFP (current : ℚ) (rs : String) : ℚ :=
  |floatRound (current - ratioToFloatFP rs)|

/-- One iteration of the loop of `find_closest_ratio`, float semantics. -/
def fcrStepFP (current : ℚ) (acc : String × Option ℚ) (rs : String) :
    String × Option ℚ :=
  let diff := diffToFP current rs
  match acc.2 with
  | none => (rs, some diff)
  | some m => if diff < m then (rs, some diff) else acc

/-- The loop of `find_closest_ratio`, float semantics, starting from
`closest_ratio = "1:1"`, `min_diff = inf`. -/
def fcrCoreFP (current : ℚ) : String :=
  (SUPPORTED_RATIOS.foldl (fcrStepFP current) ("1:1", none)).1

/-- Function `find_closest_ratio` from aspect_ratio_utils.py with the
IEEE-754 binary64 arithmetic of the source modelled bit-exactly:
`current_ratio = width / height` is the correctly rounded double of the
exact quotient, each ratio value is the correctly rounded double of its
exact value, and each loop difference is a rounded binary64 subtraction.
(`find_closest_ratio` is the real-arithmetic idealisation of the same
function; the two differ only where rounding moves a comparison, e.g. at
exact ties.) -/
def find_closest_ratio_fp (width height : Int) : String :=
  if width ≤ 0 ∨ height ≤ 0 then "1:1"
  else fcrCoreFP (floatRound ((width : ℚ) / (height : ℚ)))

/- Helper lemmas about the embedding. -/

theorem pyRound_bounds (x : ℚ) :
    x - 1/2 ≤ (pyRound x : ℚ) ∧ (pyRound x : ℚ) ≤ x + 1/2 := by
  have h1 : (⌊x⌋ : ℚ) ≤ x := Int.floor_le x
  have h2 : x < (⌊x⌋ : ℚ) + 1 := Int.lt_floor_add_one x
  unfold pyRound
  dsimp only
  split_ifs <;> constructor <;> push_cast <;> linarith

/-- The loop keeps its accumulator whenever no remaining element strictly
improves the recorded minimum. -/
theorem fcrStep_foldl_keep (current : ℚ) :
    ∀ (l : List String) (b : String) (m : ℚ),
      (∀ x ∈ l, ¬ diffTo current x < m) →
      l.foldl (fcrStep current) (b, some m) = (b, some m) := by
  intro l
  induction l with
  | nil => intro b m _; rfl
  | cons x xs ih =>
      intro b m hall
      have hx : ¬ diffTo current x < m := hall x (List.mem_cons_self x xs)
      have hstep : fcrStep current (b, some m) x = (b, some m) := by
        simp [fcrStep, hx]
      rw [List.foldl_cons, hstep]
      exact ih b m fun y hy => hall y (List.mem_cons_of_mem x hy)

/-- Correspondence between the loop of `find_closest_ratio` and Mathlib's
first-occurrence `List.argmin`. -/
theorem fcrStep_foldl_argAux (current : ℚ) :
    ∀ (l : List String) (b : String),
      ∃ m, l.foldl (List.argAux fun x y => diffTo current x < diffTo current y)
              (some b) = some m ∧
        l.foldl (fcrStep current) (b, some (diffTo current b)) =
          (m, some (diffTo current m)) := by
  intro l
  induction l with
  | nil => intro b; exact ⟨b, rfl, rfl⟩
  | cons x xs ih =>
      intro b
      by_cases hlt : diffTo current x < diffTo current b
      · obtain ⟨m, hm1, hm2⟩ := ih x
        refine ⟨m, ?_, ?_⟩
        · rw [List.foldl_cons]
          have : List.argAux (fun x y => diffTo current x < diffTo current y)
              (some b) x = some x := by
            simp [List.argAux, hlt]
          rw [this]; exact hm1
        · rw [List.foldl_cons]
          have : fcrStep current (b, some (diffTo current b)) x =
              (x, some (diffTo current x)) := by
            simp [fcrStep, hlt]
          rw [this]; exact hm2
      · obtain ⟨m, hm1, hm2⟩ := ih b
        refine ⟨m, ?_, ?_⟩
        · rw [List.foldl_cons]
          have : List.argAux (fun x y => diffTo current x < diffTo current y)
              (some b) x = some b := by
            simp [List.argAux, hlt]
          rw [this]; exact hm1
        · rw [List.foldl_cons]
          have : fcrStep current (b, some (diffTo current b)) x =
              (b, some (diffTo current b)) := by
            simp [fcrStep, hlt]
          rw [this]; exact hm2

/-- The loop computes exactly `List.argmin` of the absolute differences
over `SUPPORTED_RATIOS` (first occurrence wins ties). -/
theorem fcrCore_eq_argmin (current : ℚ) :
    ∃ m, SUPPORTED_RATIOS.argmin (diffTo current) = some m ∧
      fcrCore current = m := by
  obtain ⟨m, hm1, hm2⟩ :=
    fcrStep_foldl_argAux current
      ["2:3", "3:2", "3:4", "4:3", "4:5", "5:4", "9:16", "16:9", "21:9"] "1:1"
  refine ⟨m, ?_, ?_⟩
  · show List.foldl _ none SUPPORTED_RATIOS = some m
    rw [SUPPORTED_RATIOS, List.foldl_cons]
    exact hm1
  · show (List.foldl _ ("1:1", none) SUPPORTED_RATIOS).1 = m
    rw [SUPPORTED_RATIOS, List.foldl_cons]
    have hfirst : fcrStep current ("1:1", none) "1:1" =
        ("1:1", some (diffTo current "1:1")) := rfl
    rw [hfirst, hm2]

/-- If one ratio has a strictly smaller difference than every other member,
the loop returns it. -/
theorem fcrCore_eq_of_unique (current : ℚ) (r : String)
    (hr : r ∈ SUPPORTED_RATIOS)
    (hmin : ∀ r' ∈ SUPPORTED_RATIOS, r' ≠ r →
      diffTo current r < diffTo current r') :
    fcrCore current = r := by
  obtain ⟨m, hm1, hm2⟩ := fcrCore_eq_argmin current
  have hmem : m ∈ SUPPORTED_RATIOS := List.argmin_mem hm1
  have hle : diffTo current m ≤ diffTo current r :=
    List.le_of_mem_argmin hr hm1
  by_cases hmr : m = r
  · rw [hm2, hmr]
  · exact absurd hle (not_le.mpr (hmin m hmem hmr))

/- Numeric values of the ten supported ratio strings. -/

theorem rv11 : ratioToFloat ("1:1") = 1 := by
  have h : parseRatio ("1:1") = (1, 1) := by decide
  simp only [ratioToFloat, h]
  norm_num
theorem rv23 : ratioToFloat ("2:3") = 2/3 := by
  have h : parseRatio ("2:3") = (2, 3) := by decide
  simp only [ratioToFloat, h]
  norm_num
theorem rv32 : ratioToFloat ("3:2") = 3/2 := by
  have h : parseRatio ("3:2") = (3, 2) := by decide
  simp only [ratioToFloat, h]
  norm_num
theorem rv34 : ratioToFloat ("3:4") = 3/4 := by
  have h : parseRatio ("3:4") = (3, 4) := by decide
  simp only [ratioToFloat, h]
  norm_num
theorem rv43 : ratioToFloat ("4:3") = 4/3 := by
  have h : parseRatio ("4:3") = (4, 3) := by decide
  simp only [ratioToFloat, h]
  norm_num
theorem rv45 : ratioToFloat ("4:5") = 4/5 := by
  have h : parseRatio ("4:5") = (4, 5) := by decide
  simp only [ratioToFloat, h]
  norm_num
theorem rv54 : ratioToFloat ("5:4") = 5/4 := by
  have h : parseRatio ("5:4") = (5, 4) := by decide
  simp only [ratioToFloat, h]
  norm_num
theorem rv916 : ratioToFloat ("9:16") = 9/16 := by
  have h : parseRatio ("9:16") = (9, 16) := by decide
  simp only [ratioToFloat, h]
  norm_num
theorem rv169 : ratioToFloat ("16:9") = 16/9 := by
  have h : parseRatio ("16:9") = (16, 9) := by decide
  simp only [ratioToFloat, h]
  norm_num
theorem rv219 : ratioToFloat ("21:9") = 7/3 := by
  have h : parseRatio ("21:9") = (21, 9) := by decide
  simp only [ratioToFloat, h]
  norm_num

/-- `|c - r| < |c - v|` when `v` lies above `c`. -/
theorem absUp (c r v : ℚ) (hcv : c < v) (h1 : -(v - c) < c - r)
    (h2 : c - r < v - c) : |c - r| < |c - v| := by
  rw [abs_sub_comm c v, abs_of_pos (by linarith : (0:ℚ) < v - c)]
  exact abs_lt.mpr ⟨h1, h2⟩

/-- `|c - r| < |c - v|` when `v` lies below `c`. -/
theorem absDown (c r v : ℚ) (hvc : v < c) (h1 : -(c - v) < c - r)
    (h2 : c - r < c - v) : |c - r| < |c - v| := by
  rw [abs_of_pos (by linarith : (0:ℚ) < c - v)]
  exact abs_lt.mpr ⟨h1, h2⟩

/- For each supported ratio, an open interval of `width/height` values
on which the loop provably returns that ratio (the interval lies strictly
inside the Voronoi cell of the ratio's numeric value). -/


theorem fcrCore_in_11 (c : ℚ) (h1 : 9/10 < c) (h2 : c < 9/8) :
    fcrCore c = "1:1" := by
  apply fcrCore_eq_of_unique c ("1:1") (by decide)
  intro w hw hne
  simp only [SUPPORTED_RATIOS, List.mem_cons, List.not_mem_nil, or_false]
    at hw
  rcases hw with rfl | rfl | rfl | rfl | rfl | rfl | rfl | rfl | rfl | rfl
  · exact absurd rfl hne
  · simp only [diffTo, rv11, rv23]
    exact absDown c (1) (2/3) (by linarith) (by linarith)
      (by linarith)
  · simp only [diffTo, rv11, rv32]
    exact absUp c (1) (3/2) (by linarith) (by linarith)
      (by linarith)
  · simp only [diffTo, rv11, rv34]
    exact absDown c (1) (3/4) (by linarith) (by linarith)
      (by linarith)
  · simp only [diffTo, rv11, rv43]
    exact absUp c (1) (4/3) (by linarith) (by linarith)
      (by linarith)
  · simp only [diffTo, rv11, rv45]
    exact absDown c (1) (4/5) (by linarith) (by linarith)
      (by linarith)
  · simp only [diffTo, rv11, rv54]
    exact absUp c (1) (5/4) (by linarith) (by linarith)
      (by linarith)
  · simp only [diffTo, rv11, rv916]
    exact absDown c (1) (9/16) (by linarith) (by linarith)
      (by linarith)
  · simp only [diffTo, rv11, rv169]
    exact absUp c (1) (16/9) (by linarith) (by linarith)
      (by linarith)
  · simp only [diffTo, rv11, rv219]
    exact absUp c (1) (7/3) (by linarith) (by linarith)
      (by linarith)

theorem fcrCore_in_23 (c : ℚ) (h1 : 59/96 < c) (h2 : c < 17/24) :
    fcrCore c = "2:3" := by
  apply fcrCore_eq_of_unique c ("2:3") (by decide)
  intro w hw hne
  simp only [SUPPORTED_RATIOS, List.mem_cons, List.not_mem_nil, or_false]
    at hw
  rcases hw with rfl | rfl | rfl | rfl | rfl | rfl | rfl | rfl | rfl | rfl
  · simp only [diffTo, rv23, rv11]
    exact absUp c (2/3) (1) (by linarith) (by linarith)
      (by linarith)
  · exact absurd rfl hne
  · simp only [diffTo, rv23, rv32]
    exact absUp c (2/3) (3/2) (by linarith) (by linarith)
      (by linarith)
  · simp only [diffTo, rv23, rv34]
    exact absUp c (2/3) (3/4) (by linarith) (by linarith)
      (by linarith)
  · simp only [diffTo, rv23, rv43]
    exact absUp c (2/3) (4/3) (by linarith) (by linarith)
      (by linarith)
  · simp only [diffTo, rv23, rv45]
    exact absUp c (2/3) (4/5) (by linarith) (by linarith)
      (by linarith)
  · simp only [diffTo, rv23, rv54]
    exact absUp c (2/3) (5/4) (by linarith) (by linarith)
      (by linarith)
  · simp only [diffTo, rv23, rv916]
    exact absDown c (2/3) (9/16) (by linarith) (by linarith)
      (by linarith)
  · simp only [diffTo, rv23, rv169]
    exact absUp c (2/3) (16/9) (by linarith) (by linarith)
      (by linarith)
  · simp only [diffTo, rv23, rv219]
    exact absUp c (2/3) (7/3) (by linarith) (by linarith)
      (by linarith)

theorem fcrCore_in_32 (c : ℚ) (h1 : 17/12 < c) (h2 : c < 59/36) :
    fcrCore c = "3:2" := by
  apply fcrCore_eq_of_unique c ("3:2") (by decide)
  intro w hw hne
  simp only [SUPPORTED_RATIOS, List.mem_cons, List.not_mem_nil, or_false]
    at hw
  rcases hw with rfl | rfl | rfl | rfl | rfl | rfl | rfl | rfl | rfl | rfl
  · simp only [diffTo, rv32, rv11]
    exact absDown c (3/2) (1) (by linarith) (by linarith)
      (by linarith)
  · simp only [diffTo, rv32, rv23]
    exact absDown c (3/2) (2/3) (by linarith) (by linarith)
      (by linarith)
  · exact absurd rfl hne
  · simp only [diffTo, rv32, rv34]
    exact absDown c (3/2) (3/4) (by linarith) (by linarith)
      (by linarith)
  · simp only [diffTo, rv32, rv43]
    exact absDown c (3/2) (4/3) (by linarith) (by linarith)
      (by linarith)
  · simp only [diffTo, rv32, rv45]
    exact absDown c (3/2) (4/5) (by linarith) (by linarith)
      (by linarith)
  · simp only [diffTo, rv32, rv54]
    exact absDown c (3/2) (5/4) (by linarith) (by linarith)
      (by linarith)
  · simp only [diffTo, rv32, rv916]
    exact absDown c (3/2) (9/16) (by linarith) (by linarith)
      (by linarith)
  · simp only [diffTo, rv32, rv169]
    exact absUp c (3/2) (16/9) (by linarith) (by linarith)
      (by linarith)
  · simp only [diffTo, rv32, rv219]
    exact absUp c (3/2) (7/3) (by linarith) (by linarith)
      (by linarith)

theorem fcrCore_in_34 (c : ℚ) (h1 : 17/24 < c) (h2 : c < 31/40) :
    fcrCore c = "3:4" := by
  apply fcrCore_eq_of_unique c ("3:4") (by decide)
  intro w hw hne
  simp only [SUPPORTED_RATIOS, List.mem_cons, List.not_mem_nil, or_false]
    at hw
  rcases hw with rfl | rfl | rfl | rfl | rfl | rfl | rfl | rfl | rfl | rfl
  · simp only [diffTo, rv34, rv11]
    exact absUp c (3/4) (1) (by linarith) (by linarith)
      (by linarith)
  · simp only [diffTo, rv34, rv23]
    exact absDown c (3/4) (2/3) (by linarith) (by linarith)
      (by linarith)
  · simp only [diffTo, rv34, rv32]
    exact absUp c (3/4) (3/2) (by linarith) (by linarith)
      (by linarith)
  · exact absurd rfl hne
  · simp only [diffTo, rv34, rv43]
    exact absUp c (3/4) (4/3) (by linarith) (by linarith)
      (by linarith)
  · simp only [diffTo, rv34, rv45]
    exact absUp c (3/4) (4/5) (by linarith) (by linarith)
      (by linarith)
  · simp only [diffTo, rv34, rv54]
    exact absUp c (3/4) (5/4) (by linarith) (by linarith)
      (by linarith)
  · simp only [diffTo, rv34, rv916]
    exact absDown c (3/4) (9/16) (by linarith) (by linarith)
      (by linarith)
  · simp only [diffTo, rv34, rv169]
    exact absUp c (3/4) (16/9) (by linarith) (by linarith)
      (by linarith)
  · simp only [diffTo, rv34, rv219]
    exact absUp c (3/4) (7/3) (by linarith) (by linarith)
      (by linarith)

theorem fcrCore_in_43 (c : ℚ) (h1 : 31/24 < c) (h2 : c < 17/12) :
    fcrCore c = "4:3" := by
  apply fcrCore_eq_of_unique c ("4:3") (by decide)
  intro w hw hne
  simp only [SUPPORTED_RATIOS, List.mem_cons, List.not_mem_nil, or_false]
    at hw
  rcases hw with rfl | rfl | rfl | rfl | rfl | rfl | rfl | rfl | rfl | rfl
  · simp only [diffTo, rv43, rv11]
    exact absDown c (4/3) (1) (by linarith) (by linarith)
      (by linarith)
  · simp only [diffTo, rv43, rv23]
    exact absDown c (4/3) (2/3) (by linarith) (by linarith)
      (by linarith)
  · simp only [diffTo, rv43, rv32]
    exact absUp c (4/3) (3/2) (by linarith) (by linarith)
      (by linarith)
  · simp only [diffTo, rv43, rv34]
    exact absDown c (4/3) (3/4) (by linarith) (by linarith)
      (by linarith)
  · exact absurd rfl hne
  · simp only [diffTo, rv43, rv45]
    exact absDown c (4/3) (4/5) (by linarith) (by linarith)
      (by linarith)
  · simp only [diffTo, rv43, rv54]
    exact absDown c (4/3) (5/4) (by linarith) (by linarith)
      (by linarith)
  · simp only [diffTo, rv43, rv916]
    exact absDown c (4/3) (9/16) (by linarith) (by linarith)
      (by linarith)
  · simp only [diffTo, rv43, rv169]
    exact absUp c (4/3) (16/9) (by linarith) (by linarith)
      (by linarith)
  · simp only [diffTo, rv43, rv219]
    exact absUp c (4/3) (7/3) (by linarith) (by linarith)
      (by linarith)

theorem fcrCore_in_45 (c : ℚ) (h1 : 31/40 < c) (h2 : c < 9/10) :
    fcrCore c = "4:5" := by
  apply fcrCore_eq_of_unique c ("4:5") (by decide)
  intro w hw hne
  simp only [SUPPORTED_RATIOS, List.mem_cons, List.not_mem_nil, or_false]
    at hw
  rcases hw with rfl | rfl | rfl | rfl | rfl | rfl | rfl | rfl | rfl | rfl
  · simp only [diffTo, rv45, rv11]
    exact absUp c (4/5) (1) (by linarith) (by linarith)
      (by linarith)
  · simp only [diffTo, rv45, rv23]
    exact absDown c (4/5) (2/3) (by linarith) (by linarith)
      (by linarith)
  · simp only [diffTo, rv45, rv32]
    exact absUp c (4/5) (3/2) (by linarith) (by linarith)
      (by linarith)
  · simp only [diffTo, rv45, rv34]
    exact absDown c (4/5) (3/4) (by linarith) (by linarith)
      (by linarith)
  · simp only [diffTo, rv45, rv43]
    exact absUp c (4/5) (4/3) (by linarith) (by linarith)
      (by linarith)
  · exact absurd rfl hne
  · simp only [diffTo, rv45, rv54]
    exact absUp c (4/5) (5/4) (by linarith) (by linarith)
      (by linarith)
  · simp only [diffTo, rv45, rv916]
    exact absDown c (4/5) (9/16) (by linarith) (by linarith)
      (by linarith)
  · simp only [diffTo, rv45, rv169]
    exact absUp c (4/5) (16/9) (by linarith) (by linarith)
      (by linarith)
  · simp only [diffTo, rv45, rv219]
    exact absUp c (4/5) (7/3) (by linarith) (by linarith)
      (by linarith)

theorem fcrCore_in_54 (c : ℚ) (h1 : 9/8 < c) (h2 : c < 31/24) :
    fcrCore c = "5:4" := by
  apply fcrCore_eq_of_unique c ("5:4") (by decide)
  intro w hw hne
  simp only [SUPPORTED_RATIOS, List.mem_cons, List.not_mem_nil, or_false]
    at hw
  rcases hw with rfl | rfl | rfl | rfl | rfl | rfl | rfl | rfl | rfl | rfl
  · simp only [diffTo, rv54, rv11]
    exact absDown c (5/4) (1) (by linarith) (by linarith)
      (by linarith)
  · simp only [diffTo, rv54, rv23]
    exact absDown c (5/4) (2/3) (by linarith) (by linarith)
      (by linarith)
  · simp only [diffTo, rv54, rv32]
    exact absUp c (5/4) (3/2) (by linarith) (by linarith)
      (by linarith)
  · simp only [diffTo, rv54, rv34]
    exact absDown c (5/4) (3/4) (by linarith) (by linarith)
      (by linarith)
  · simp only [diffTo, rv54, rv43]
    exact absUp c (5/4) (4/3) (by linarith) (by linarith)
      (by linarith)
  · simp only [diffTo, rv54, rv45]
    exact absDown c (5/4) (4/5) (by linarith) (by linarith)
      (by linarith)
  · exact absurd rfl hne
  · simp only [diffTo, rv54, rv916]
    exact absDown c (5/4) (9/16) (by linarith) (by linarith)
      (by linarith)
  · simp only [diffTo, rv54, rv169]
    exact absUp c (5/4) (16/9) (by linarith) (by linarith)
      (by linarith)
  · simp only [diffTo, rv54, rv219]
    exact absUp c (5/4) (7/3) (by linarith) (by linarith)
      (by linarith)

theorem fcrCore_in_916 (c : ℚ) (h2 : c < 59/96) :
    fcrCore c = "9:16" := by
  apply fcrCore_eq_of_unique c ("9:16") (by decide)
  intro w hw hne
  simp only [SUPPORTED_RATIOS, List.mem_cons, List.not_mem_nil, or_false]
    at hw
  rcases hw with rfl | rfl | rfl | rfl | rfl | rfl | rfl | rfl | rfl | rfl
  · simp only [diffTo, rv916, rv11]
    exact absUp c (9/16) (1) (by linarith) (by linarith)
      (by linarith)
  · simp only [diffTo, rv916, rv23]
    exact absUp c (9/16) (2/3) (by linarith) (by linarith)
      (by linarith)
  · simp only [diffTo, rv916, rv32]
    exact absUp c (9/16) (3/2) (by linarith) (by linarith)
      (by linarith)
  · simp only [diffTo, rv916, rv34]
    exact absUp c (9/16) (3/4) (by linarith) (by linarith)
      (by linarith)
  · simp only [diffTo, rv916, rv43]
    exact absUp c (9/16) (4/3) (by linarith) (by linarith)
      (by linarith)
  · simp only [diffTo, rv916, rv45]
    exact absUp c (9/16) (4/5) (by linarith) (by linarith)
      (by linarith)
  · simp only [diffTo, rv916, rv54]
    exact absUp c (9/16) (5/4) (by linarith) (by linarith)
      (by linarith)
  · exact absurd rfl hne
  · simp only [diffTo, rv916, rv169]
    exact absUp c (9/16) (16/9) (by linarith) (by linarith)
      (by linarith)
  · simp only [diffTo, rv916, rv219]
    exact absUp c (9/16) (7/3) (by linarith) (by linarith)
      (by linarith)

theorem fcrCore_in_169 (c : ℚ) (h1 : 59/36 < c) (h2 : c < 37/18) :
    fcrCore c = "16:9" := by
  apply fcrCore_eq_of_unique c ("16:9") (by decide)
  intro w hw hne
  simp only [SUPPORTED_RATIOS, List.mem_cons, List.not_mem_nil, or_false]
    at hw
  rcases hw with rfl | rfl | rfl | rfl | rfl | rfl | rfl | rfl | rfl | rfl
  · simp only [diffTo, rv169, rv11]
    exact absDown c (16/9) (1) (by linarith) (by linarith)
      (by linarith)
  · simp only [diffTo, rv169, rv23]
    exact absDown c (16/9) (2/3) (by linarith) (by linarith)
      (by linarith)
  · simp only [diffTo, rv169, rv32]
    exact absDown c (16/9) (3/2) (by linarith) (by linarith)
      (by linarith)
  · simp only [diffTo, rv169, rv34]
    exact absDown c (16/9) (3/4) (by linarith) (by linarith)
      (by linarith)
  · simp only [diffTo, rv169, rv43]
    exact absDown c (16/9) (4/3) (by linarith) (by linarith)
      (by linarith)
  · simp only [diffTo, rv169, rv45]
    exact absDown c (16/9) (4/5) (by linarith) (by linarith)
      (by linarith)
  · simp only [diffTo, rv169, rv54]
    exact absDown c (16/9) (5/4) (by linarith) (by linarith)
      (by linarith)
  · simp only [diffTo, rv169, rv916]
    exact absDown c (16/9) (9/16) (by linarith) (by linarith)
      (by linarith)
  · exact absurd rfl hne
  · simp only [diffTo, rv169, rv219]
    exact absUp c (16/9) (7/3) (by linarith) (by linarith)
      (by linarith)

theorem fcrCore_in_219 (c : ℚ) (h1 : 37/18 < c) :
    fcrCore c = "21:9" := by
  apply fcrCore_eq_of_unique c ("21:9") (by decide)
  intro w hw hne
  simp only [SUPPORTED_RATIOS, List.mem_cons, List.not_mem_nil, or_false]
    at hw
  rcases hw with rfl | rfl | rfl | rfl | rfl | rfl | rfl | rfl | rfl | rfl
  · simp only [diffTo, rv219, rv11]
    exact absDown c (7/3) (1) (by linarith) (by linarith)
      (by linarith)
  · simp only [diffTo, rv219, rv23]
    exact absDown c (7/3) (2/3) (by linarith) (by linarith)
      (by linarith)
  · simp only [diffTo, rv219, rv32]
    exact absDown c (7/3) (3/2) (by linarith) (by linarith)
      (by linarith)
  · simp only [diffTo, rv219, rv34]
    exact absDown c (7/3) (3/4) (by linarith) (by linarith)
      (by linarith)
  · simp only [diffTo, rv219, rv43]
    exact absDown c (7/3) (4/3) (by linarith) (by linarith)
      (by linarith)
  · simp only [diffTo, rv219, rv45]
    exact absDown c (7/3) (4/5) (by linarith) (by linarith)
      (by linarith)
  · simp only [diffTo, rv219, rv54]
    exact absDown c (7/3) (5/4) (by linarith) (by linarith)
      (by linarith)
  · simp only [diffTo, rv219, rv916]
    exact absDown c (7/3) (9/16) (by linarith) (by linarith)
      (by linarith)
  · simp only [diffTo, rv219, rv169]
    exact absDown c (7/3) (16/9) (by linarith) (by linarith)
      (by linarith)
  · exact absurd rfl hne

/- Evaluation lemmas for the two branches of `adjust_resolution_to_ratio`. -/

theorem adjust_eq_land (w h a b : Int) (t : String)
    (hp : parseRatio t = (a, b)) (hhw : h ≤ w) :
    adjust_resolution_to_ratio w h t =
      (w, pyRound ((w : ℚ) * (b : ℚ) / (a : ℚ))) := by
  unfold adjust_resolution_to_ratio
  rw [hp]
  dsimp only
  rw [if_pos hhw, div_div_eq_mul_div]

theorem adjust_eq_port (w h a b : Int) (t : String)
    (hp : parseRatio t = (a, b)) (hhw : ¬ h ≤ w) :
    adjust_resolution_to_ratio w h t =
      (pyRound ((a : ℚ) * (h : ℚ) / (b : ℚ)), h) := by
  unfold adjust_resolution_to_ratio
  rw [hp]
  dsimp only
  rw [if_neg hhw]
  congr 1
  ring_nf

/-- Generic round-trip argument for the landscape branch: the recomputed
height is within 1/2 of the exact value, so the new width/height ratio
stays inside the target's interval. -/
theorem roundtrip_land (w h a b : Int) (t : String) (lo hi : ℚ)
    (hp : parseRatio t = (a, b)) (hw : 0 < w) (hhw : h ≤ w)
    (hlo0 : 0 ≤ lo) (hhi0 : 0 ≤ hi)
    (hfcr : ∀ c : ℚ, lo < c → c < hi → fcrCore c = t)
    (hlo : lo * ((w : ℚ) * (b : ℚ) / (a : ℚ) + 1/2) < (w : ℚ))
    (hhi : (w : ℚ) < hi * ((w : ℚ) * (b : ℚ) / (a : ℚ) - 1/2))
    (hpos : (0:ℚ) < (w : ℚ) * (b : ℚ) / (a : ℚ) - 1/2) :
    find_closest_ratio (adjust_resolution_to_ratio w h t).1
      (adjust_resolution_to_ratio w h t).2 = t := by
  rw [adjust_eq_land w h a b t hp hhw]
  obtain ⟨hb1, hb2⟩ := pyRound_bounds ((w : ℚ) * (b : ℚ) / (a : ℚ))
  have hnposQ : (0:ℚ) < (pyRound ((w : ℚ) * (b : ℚ) / (a : ℚ)) : ℚ) := by
    linarith
  have hnpos : 0 < pyRound ((w : ℚ) * (b : ℚ) / (a : ℚ)) := by
    exact_mod_cast hnposQ
  show find_closest_ratio w (pyRound ((w : ℚ) * (b : ℚ) / (a : ℚ))) = t
  unfold find_closest_ratio
  rw [if_neg (by push_neg; exact ⟨hw, hnpos⟩)]
  apply hfcr
  · rw [lt_div_iff₀ hnposQ]
    calc lo * (pyRound ((w : ℚ) * (b : ℚ) / (a : ℚ)) : ℚ)
        ≤ lo * ((w : ℚ) * (b : ℚ) / (a : ℚ) + 1/2) :=
          mul_le_mul_of_nonneg_left hb2 hlo0
      _ < (w : ℚ) := hlo
  · rw [div_lt_iff₀ hnposQ]
    calc (w : ℚ) < hi * ((w : ℚ) * (b : ℚ) / (a : ℚ) - 1/2) := hhi
      _ ≤ hi * (pyRound ((w : ℚ) * (b : ℚ) / (a : ℚ)) : ℚ) :=
          mul_le_mul_of_nonneg_left hb1 hhi0

/-- Generic round-trip argument for the portrait branch. -/
theorem roundtrip_port (w h a b : Int) (t : String) (lo hi : ℚ)
    (hp : parseRatio t = (a, b)) (hh : 0 < h) (hhw : ¬ h ≤ w)
    (hfcr : ∀ c : ℚ, lo < c → c < hi → fcrCore c = t)
    (hlo : lo * (h : ℚ) < (a : ℚ) * (h : ℚ) / (b : ℚ) - 1/2)
    (hhi : (a : ℚ) * (h : ℚ) / (b : ℚ) + 1/2 < hi * (h : ℚ))
    (hpos : (0:ℚ) < (a : ℚ) * (h : ℚ) / (b : ℚ) - 1/2) :
    find_closest_ratio (adjust_resolution_to_ratio w h t).1
      (adjust_resolution_to_ratio w h t).2 = t := by
  rw [adjust_eq_port w h a b t hp hhw]
  obtain ⟨hb1, hb2⟩ := pyRound_bounds ((a : ℚ) * (h : ℚ) / (b : ℚ))
  have hmposQ : (0:ℚ) < (pyRound ((a : ℚ) * (h : ℚ) / (b : ℚ)) : ℚ) := by
    linarith
  have hmpos : 0 < pyRound ((a : ℚ) * (h : ℚ) / (b : ℚ)) := by
    exact_mod_cast hmposQ
  have hhposQ : (0:ℚ) < (h : ℚ) := by exact_mod_cast hh
  show find_closest_ratio (pyRound ((a : ℚ) * (h : ℚ) / (b : ℚ))) h = t
  unfold find_closest_ratio
  rw [if_neg (by push_neg; exact ⟨hmpos, hh⟩)]
  apply hfcr
  · rw [lt_div_iff₀ hhposQ]
    linarith
  · rw [div_lt_iff₀ hhposQ]
    linarith

/-- C7 (amended): for positive dimensions whose larger edge is at least 21,
`find_closest_ratio` applied to the output of `adjust_resolution_to_ratio`
recovers the target ratio.  (The un-amended claim over all positive
dimensions is refuted by `c7_counterexample`.) -/
theorem c7_adjust_roundtrip_amended (w h : Int) (r : String) (hw : 0 < w)
    (hh : 0 < h) (hmax : 21 ≤ max w h) (hr : r ∈ SUPPORTED_RATIOS) :
    find_closest_ratio (adjust_resolution_to_ratio w h r).1
      (adjust_resolution_to_ratio w h r).2 = r := by
  simp only [SUPPORTED_RATIOS, List.mem_cons, List.not_mem_nil, or_false] at hr
  rcases le_or_lt h w with hhw | hwh
  · have hw21 : 21 ≤ w := by rw [max_eq_left hhw] at hmax; exact hmax
    have h21 : (21:ℚ) ≤ (w:ℚ) := by exact_mod_cast hw21
    rcases hr with rfl | rfl | rfl | rfl | rfl | rfl | rfl | rfl | rfl | rfl
    · exact roundtrip_land w h 1 1 ("1:1") (9/10) (9/8) (by decide) hw hhw
        (by norm_num) (by norm_num) (fun c hc1 hc2 => fcrCore_in_11 c hc1 hc2)
        (by push_cast; linarith) (by push_cast; linarith)
        (by push_cast; linarith)
    · exact roundtrip_land w h 2 3 ("2:3") (59/96) (17/24) (by decide) hw hhw
        (by norm_num) (by norm_num) (fun c hc1 hc2 => fcrCore_in_23 c hc1 hc2)
        (by push_cast; linarith) (by push_cast; linarith)
        (by push_cast; linarith)
    · exact roundtrip_land w h 3 2 ("3:2") (17/12) (59/36) (by decide) hw hhw
        (by norm_num) (by norm_num) (fun c hc1 hc2 => fcrCore_in_32 c hc1 hc2)
        (by push_cast; linarith) (by push_cast; linarith)
        (by push_cast; linarith)
    · exact roundtrip_land w h 3 4 ("3:4") (17/24) (31/40) (by decide) hw hhw
        (by norm_num) (by norm_num) (fun c hc1 hc2 => fcrCore_in_34 c hc1 hc2)
        (by push_cast; linarith) (by push_cast; linarith)
        (by push_cast; linarith)
    · exact roundtrip_land w h 4 3 ("4:3") (31/24) (17/12) (by decide) hw hhw
        (by norm_num) (by norm_num) (fun c hc1 hc2 => fcrCore_in_43 c hc1 hc2)
        (by push_cast; linarith) (by push_cast; linarith)
        (by push_cast; linarith)
    · exact roundtrip_land w h 4 5 ("4:5") (31/40) (9/10) (by decide) hw hhw
        (by norm_num) (by norm_num) (fun c hc1 hc2 => fcrCore_in_45 c hc1 hc2)
        (by push_cast; linarith) (by push_cast; linarith)
        (by push_cast; linarith)
    · exact roundtrip_land w h 5 4 ("5:4") (9/8) (31/24) (by decide) hw hhw
        (by norm_num) (by norm_num) (fun c hc1 hc2 => fcrCore_in_54 c hc1 hc2)
        (by push_cast; linarith) (by push_cast; linarith)
        (by push_cast; linarith)
    · exact roundtrip_land w h 9 16 ("9:16") (0) (59/96) (by decide) hw hhw
        (by norm_num) (by norm_num) (fun c _ hc2 => fcrCore_in_916 c hc2)
        (by push_cast; linarith) (by push_cast; linarith)
        (by push_cast; linarith)
    · exact roundtrip_land w h 16 9 ("16:9") (59/36) (37/18) (by decide) hw hhw
        (by norm_num) (by norm_num) (fun c hc1 hc2 => fcrCore_in_169 c hc1 hc2)
        (by push_cast; linarith) (by push_cast; linarith)
        (by push_cast; linarith)
    · exact roundtrip_land w h 21 9 ("21:9") (37/18) (3) (by decide) hw hhw
        (by norm_num) (by norm_num) (fun c hc1 _ => fcrCore_in_219 c hc1)
        (by push_cast; linarith) (by push_cast; linarith)
        (by push_cast; linarith)
  · have hh21 : 21 ≤ h := by
      rw [max_eq_right (le_of_lt hwh)] at hmax; exact hmax
    have h21 : (21:ℚ) ≤ (h:ℚ) := by exact_mod_cast hh21
    rcases hr with rfl | rfl | rfl | rfl | rfl | rfl | rfl | rfl | rfl | rfl
    · exact roundtrip_port w h 1 1 ("1:1") (9/10) (9/8) (by decide) hh
        (not_le.mpr hwh) (fun c hc1 hc2 => fcrCore_in_11 c hc1 hc2)
        (by push_cast; linarith) (by push_cast; linarith)
        (by push_cast; linarith)
    · exact roundtrip_port w h 2 3 ("2:3") (59/96) (17/24) (by decide) hh
        (not_le.mpr hwh) (fun c hc1 hc2 => fcrCore_in_23 c hc1 hc2)
        (by push_cast; linarith) (by push_cast; linarith)
        (by push_cast; linarith)
    · exact roundtrip_port w h 3 2 ("3:2") (17/12) (59/36) (by decide) hh
        (not_le.mpr hwh) (fun c hc1 hc2 => fcrCore_in_32 c hc1 hc2)
        (by push_cast; linarith) (by push_cast; linarith)
        (by push_cast; linarith)
    · exact roundtrip_port w h 3 4 ("3:4") (17/24) (31/40) (by decide) hh
        (not_le.mpr hwh) (fun c hc1 hc2 => fcrCore_in_34 c hc1 hc2)
        (by push_cast; linarith) (by push_cast; linarith)
        (by push_cast; linarith)
    · exact roundtrip_port w h 4 3 ("4:3") (31/24) (17/12) (by decide) hh
        (not_le.mpr hwh) (fun c hc1 hc2 => fcrCore_in_43 c hc1 hc2)
        (by push_cast; linarith) (by push_cast; linarith)
        (by push_cast; linarith)
    · exact roundtrip_port w h 4 5 ("4:5") (31/40) (9/10) (by decide) hh
        (not_le.mpr hwh) (fun c hc1 hc2 => fcrCore_in_45 c hc1 hc2)
        (by push_cast; linarith) (by push_cast; linarith)
        (by push_cast; linarith)
    · exact roundtrip_port w h 5 4 ("5:4") (9/8) (31/24) (by decide) hh
        (not_le.mpr hwh) (fun c hc1 hc2 => fcrCore_in_54 c hc1 hc2)
        (by push_cast; linarith) (by push_cast; linarith)
        (by push_cast; linarith)
    · exact roundtrip_port w h 9 16 ("9:16") (0) (59/96) (by decide) hh
        (not_le.mpr hwh) (fun c _ hc2 => fcrCore_in_916 c hc2)
        (by push_cast; linarith) (by push_cast; linarith)
        (by push_cast; linarith)
    · exact roundtrip_port w h 16 9 ("16:9") (59/36) (37/18) (by decide) hh
        (not_le.mpr hwh) (fun c hc1 hc2 => fcrCore_in_169 c hc1 hc2)
        (by push_cast; linarith) (by push_cast; linarith)
        (by push_cast; linarith)
    · exact roundtrip_port w h 21 9 ("21:9") (37/18) (3) (by decide) hh
        (not_le.mpr hwh) (fun c hc1 _ => fcrCore_in_219 c hc1)
        (by push_cast; linarith) (by push_cast; linarith)
        (by push_cast; linarith)

/-- Witness for C7's amended theorem at the concrete input (1920, 1080,
"16:9"): the hypotheses hold and the round-trip returns "16:9". -/
theorem c7_adjust_roundtrip_amended_witness :
    find_closest_ratio (adjust_resolution_to_ratio 1920 1080 ("16:9")).1
      (adjust_resolution_to_ratio 1920 1080 ("16:9")).2 = "16:9" :=
  c7_adjust_roundtrip_amended 1920 1080 ("16:9") (by decide) (by decide)
    (by decide) (by decide)

/-- Counterexample to C7 as stated: at width = height = 2 with target
"21:9", the adjusted resolution is (2, 1) and `find_closest_ratio`
returns "16:9", not "21:9". -/
theorem c7_counterexample :
    ¬ find_closest_ratio (adjust_resolution_to_ratio 2 2 ("21:9")).1
        (adjust_resolution_to_ratio 2 2 ("21:9")).2 = "21:9" := by
  have hadj : adjust_resolution_to_ratio 2 2 ("21:9") = (2, 1) := by
    rw [adjust_eq_land 2 2 21 9 ("21:9") (by decide) (by decide)]
    have harg : ((2:Int) : ℚ) * ((9:Int) : ℚ) / ((21:Int) : ℚ) = 6/7 := by
      norm_num
    rw [harg]
    have hf : ⌊(6/7 : ℚ)⌋ = 0 := by
      rw [Int.floor_eq_iff]
      constructor <;> norm_num
    unfold pyRound
    dsimp only
    rw [hf]
    norm_num
  rw [hadj]
  have hfcr2 : find_closest_ratio 2 1 = "16:9" := by
    unfold find_closest_ratio
    rw [if_neg (by decide)]
    have hc : ((2:Int) : ℚ) / ((1:Int) : ℚ) = 2 := by norm_num
    rw [hc]
    exact fcrCore_in_169 2 (by norm_num) (by norm_num)
  rw [hfcr2]
  decide

/-- Characterisation of `Int.log 2` on an explicit binade. -/
theorem log2_eq_of_between (q : ℚ) (e : ℤ) (h1 : (2:ℚ) ^ e ≤ q)
    (h2 : q < (2:ℚ) ^ (e + 1)) : Int.log 2 q = e := by
  have hq : 0 < q := lt_of_lt_of_le (by positivity) h1
  have hb : 1 < (2:ℕ) := by norm_num
  have hcast : (((2:ℕ) : ℚ)) = (2:ℚ) := by norm_num
  have hA : e ≤ Int.log 2 q := by
    rw [← Int.zpow_le_iff_le_log hb hq, hcast]
    exact h1
  have hB : Int.log 2 q < e + 1 := by
    rw [← Int.lt_zpow_iff_log_lt hb hq, hcast]
    exact h2
  omega

/-- Evaluation rule for `floatRound` on a positive rational with known
binade `e` and known rounded significand `m`. -/
theorem floatRound_eval (q : ℚ) (e m : ℤ)
    (h1 : (2:ℚ) ^ e ≤ q) (h2 : q < (2:ℚ) ^ (e + 1))
    (h3 : pyRound (q * (2:ℚ) ^ ((52:ℤ) - e)) = m) :
    floatRound q = (m : ℚ) * (2:ℚ) ^ (e - (52:ℤ)) := by
  have hq : 0 < q := lt_of_lt_of_le (by positivity) h1
  unfold floatRound
  rw [if_neg (ne_of_gt hq), if_pos hq]
  show ((pyRound (q * (2:ℚ) ^ ((52:ℤ) - Int.log 2 q)) : ℤ) : ℚ) *
      (2:ℚ) ^ (Int.log 2 q - (52:ℤ)) = (m : ℚ) * (2:ℚ) ^ (e - (52:ℤ))
  rw [log2_eq_of_between q e h1 h2, h3]

/-- Python's `round` is the identity on integers. -/
theorem pyRound_int (n : ℤ) : pyRound ((n : ℚ)) = n := by
  unfold pyRound
  rw [Int.floor_intCast]
  norm_num

/-- Evaluation of `pyRound` when the fractional part is below 1/2. -/
theorem pyRound_eval_lo (x : ℚ) (n : ℤ) (h1 : (n:ℚ) ≤ x)
    (h2 : x < (n:ℚ) + 1/2) : pyRound x = n := by
  have hf : ⌊x⌋ = n := Int.floor_eq_iff.mpr ⟨h1, by linarith⟩
  unfold pyRound
  rw [hf, if_pos (by linarith)]

/-- Evaluation of `pyRound` when the fractional part is above 1/2. -/
theorem pyRound_eval_hi (x : ℚ) (n : ℤ) (h1 : (n:ℚ) + 1/2 < x)
    (h2 : x < (n:ℚ) + 1) : pyRound x = n + 1 := by
  have hf : ⌊x⌋ = n := Int.floor_eq_iff.mpr ⟨by linarith, by linarith⟩
  unfold pyRound
  rw [hf, if_neg (by linarith), if_pos (by linarith)]

/-- Evaluation of `pyRound` at an exact half with even floor: ties go to
the even neighbour. -/
theorem pyRound_eval_half_even (x : ℚ) (n : ℤ) (h1 : x = (n:ℚ) + 1/2)
    (h2 : n % 2 = 0) : pyRound x = n := by
  have hf : ⌊x⌋ = n := Int.floor_eq_iff.mpr ⟨by linarith, by linarith⟩
  unfold pyRound
  rw [hf, if_neg (by linarith), if_neg (by linarith), if_pos h2]

/-- Binary64 values with significand in `[2^52, 2^53)` are fixed points of
`floatRound`. -/
theorem floatRound_fix (q : ℚ) (m e : ℤ) (hm1 : 2^52 ≤ m) (hm2 : m < 2^53)
    (hq : q = (m:ℚ) * (2:ℚ) ^ (e - (52:ℤ))) : floatRound q = q := by
  subst hq
  have hp : (0:ℚ) < (2:ℚ) ^ (e - (52:ℤ)) := by positivity
  have hml : ((2:ℚ))^(52:ℤ) ≤ (m:ℚ) := by
    rw [show ((2:ℚ))^(52:ℤ) = ((2^52 : ℤ) : ℚ) by push_cast; norm_num]
    exact_mod_cast hm1
  have hmu : (m:ℚ) < ((2:ℚ))^(53:ℤ) := by
    rw [show ((2:ℚ))^(53:ℤ) = ((2^53 : ℤ) : ℚ) by push_cast; norm_num]
    exact_mod_cast hm2
  have h1 : (2:ℚ) ^ e ≤ (m:ℚ) * (2:ℚ) ^ (e - (52:ℤ)) := by
    calc (2:ℚ) ^ e = (2:ℚ)^(52:ℤ) * (2:ℚ) ^ (e - (52:ℤ)) := by
          rw [← zpow_add₀ (by norm_num : (2:ℚ) ≠ 0)]; ring_nf
      _ ≤ (m:ℚ) * (2:ℚ) ^ (e - (52:ℤ)) :=
          mul_le_mul_of_nonneg_right hml (le_of_lt hp)
  have h2 : (m:ℚ) * (2:ℚ) ^ (e - (52:ℤ)) < (2:ℚ) ^ (e + 1) := by
    calc (m:ℚ) * (2:ℚ) ^ (e - (52:ℤ))
        < (2:ℚ)^(53:ℤ) * (2:ℚ) ^ (e - (52:ℤ)) :=
          mul_lt_mul_of_pos_right hmu hp
      _ = (2:ℚ) ^ (e + 1) := by
          rw [← zpow_add₀ (by norm_num : (2:ℚ) ≠ 0)]; ring_nf
  have h3 : pyRound ((m:ℚ) * (2:ℚ) ^ (e - (52:ℤ)) * (2:ℚ) ^ ((52:ℤ) - e)) =
      m := by
    rw [show (m:ℚ) * (2:ℚ) ^ (e - (52:ℤ)) * (2:ℚ) ^ ((52:ℤ) - e) = (m:ℚ) by
      rw [mul_assoc, ← zpow_add₀ (by norm_num : (2:ℚ) ≠ 0)]
      ring_nf]
    exact pyRound_int m
  exact floatRound_eval _ e m h1 h2 h3

/-- Rounding commutes with negation (the rounding is symmetric). -/
theorem floatRound_neg (q : ℚ) : floatRound (-q) = -floatRound q := by
  rcases lt_trichotomy q 0 with h|h|h
  · have h1 : ¬ (-q = 0) := by
      intro h0
      exact absurd (neg_eq_zero.mp h0) (ne_of_lt h)
    have h2 : (0:ℚ) < -q := by linarith
    unfold floatRound
    rw [if_neg h1, if_pos h2, if_neg (ne_of_lt h), if_neg (by linarith),
      neg_neg]
  · subst h
    unfold floatRound
    norm_num
  · have h1 : ¬ (-q = 0) := by
      intro h0
      exact absurd (neg_eq_zero.mp h0) (ne_of_gt h)
    have h2 : ¬ ((0:ℚ) < -q) := by linarith
    unfold floatRound
    rw [if_neg h1, if_neg h2, if_neg (ne_of_gt h), if_pos h, neg_neg]

/-- Binary64 value of the quotient 17/24: the double `current_ratio`
computed by `find_closest_ratio(17, 24)`. -/
theorem flc1724 : floatRound ((17:ℚ)/24) = (6380099472108203:ℚ) / 2 ^ 53 := by
  rw [floatRound_eval ((17:ℚ)/24) (-1) 6380099472108203 (by norm_num)
    (by norm_num)
    (pyRound_eval_hi _ 6380099472108202 (by norm_num) (by norm_num))]
  norm_num

/-- Correspondence between the float-semantics loop of `find_closest_ratio` and Mathlib's
first-occurrence `List.argmin`. -/
theorem fcrStepFP_foldl_argAux (current : ℚ) :
    ∀ (l : List String) (b : String),
      ∃ m, l.foldl (List.argAux fun x y => diffToFP current x < diffToFP current y)
              (some b) = some m ∧
        l.foldl (fcrStepFP current) (b, some (diffToFP current b)) =
          (m, some (diffToFP current m)) := by
  intro l
  induction l with
  | nil => intro b; exact ⟨b, rfl, rfl⟩
  | cons x xs ih =>
      intro b
      by_cases hlt : diffToFP current x < diffToFP current b
      · obtain ⟨m, hm1, hm2⟩ := ih x
        refine ⟨m, ?_, ?_⟩
        · rw [List.foldl_cons]
          have : List.argAux (fun x y => diffToFP current x < diffToFP current y)
              (some b) x = some x := by
            simp [List.argAux, hlt]
          rw [this]; exact hm1
        · rw [List.foldl_cons]
          have : fcrStepFP current (b, some (diffToFP current b)) x =
              (x, some (diffToFP current x)) := by
            simp [fcrStepFP, hlt]
          rw [this]; exact hm2
      · obtain ⟨m, hm1, hm2⟩ := ih b
        refine ⟨m, ?_, ?_⟩
        · rw [List.foldl_cons]
          have : List.argAux (fun x y => diffToFP current x < diffToFP current y)
              (some b) x = some b := by
            simp [List.argAux, hlt]
          rw [this]; exact hm1
        · rw [List.foldl_cons]
          have : fcrStepFP current (b, some (diffToFP current b)) x =
              (b, some (diffToFP current b)) := by
            simp [fcrStepFP, hlt]
          rw [this]; exact hm2

/-- The loop computes exactly `List.argmin` of the absolute differences
over `SUPPORTED_RATIOS` (first occurrence wins ties). -/
theorem fcrCoreFP_eq_argmin (current : ℚ) :
    ∃ m, SUPPORTED_RATIOS.argmin (diffToFP current) = some m ∧
      fcrCoreFP current = m := by
  obtain ⟨m, hm1, hm2⟩ :=
    fcrStepFP_foldl_argAux current
      ["2:3", "3:2", "3:4", "4:3", "4:5", "5:4", "9:16", "16:9", "21:9"] "1:1"
  refine ⟨m, ?_, ?_⟩
  · show List.foldl _ none SUPPORTED_RATIOS = some m
    rw [SUPPORTED_RATIOS, List.foldl_cons]
    exact hm1
  · show (List.foldl _ ("1:1", none) SUPPORTED_RATIOS).1 = m
    rw [SUPPORTED_RATIOS, List.foldl_cons]
    have hfirst : fcrStepFP current ("1:1", none) "1:1" =
        ("1:1", some (diffToFP current "1:1")) := rfl
    rw [hfirst, hm2]

/-- If one ratio has a strictly smaller difference than every other member,
the loop returns it. -/
theorem fcrCoreFP_eq_of_unique (current : ℚ) (r : String)
    (hr : r ∈ SUPPORTED_RATIOS)
    (hmin : ∀ r' ∈ SUPPORTED_RATIOS, r' ≠ r →
      diffToFP current r < diffToFP current r') :
    fcrCoreFP current = r := by
  obtain ⟨m, hm1, hm2⟩ := fcrCoreFP_eq_argmin current
  have hmem : m ∈ SUPPORTED_RATIOS := List.argmin_mem hm1
  have hle : diffToFP current m ≤ diffToFP current r :=
    List.le_of_mem_argmin hr hm1
  by_cases hmr : m = r
  · rw [hm2, hmr]
  · exact absurd hle (not_le.mpr (hmin m hmem hmr))


/-- Binary64 value of the ratio 1:1: the double produced by the true
division in `_ratio_to_float`, as an exact rational. -/
theorem flv11 : ratioToFloatFP ("1:1") = (9007199254740992:ℚ) / 2 ^ 53 := by
  unfold ratioToFloatFP
  rw [rv11]
  rw [floatRound_eval ((1:ℚ)) (0) 4503599627370496 (by norm_num) (by norm_num)
    (pyRound_eval_lo _ 4503599627370496 (by norm_num) (by norm_num))]
  norm_num

/-- Binary64 value of the ratio 2:3: the double produced by the true
division in `_ratio_to_float`, as an exact rational. -/
theorem flv23 : ratioToFloatFP ("2:3") = (6004799503160661:ℚ) / 2 ^ 53 := by
  unfold ratioToFloatFP
  rw [rv23]
  rw [floatRound_eval ((2:ℚ)/3) (-1) 6004799503160661 (by norm_num) (by norm_num)
    (pyRound_eval_lo _ 6004799503160661 (by norm_num) (by norm_num))]
  norm_num

/-- Binary64 value of the ratio 3:2: the double produced by the true
division in `_ratio_to_float`, as an exact rational. -/
theorem flv32 : ratioToFloatFP ("3:2") = (13510798882111488:ℚ) / 2 ^ 53 := by
  unfold ratioToFloatFP
  rw [rv32]
  rw [floatRound_eval ((3:ℚ)/2) (0) 6755399441055744 (by norm_num) (by norm_num)
    (pyRound_eval_lo _ 6755399441055744 (by norm_num) (by norm_num))]
  norm_num

/-- Binary64 value of the ratio 3:4: the double produced by the true
division in `_ratio_to_float`, as an exact rational. -/
theorem flv34 : ratioToFloatFP ("3:4") = (6755399441055744:ℚ) / 2 ^ 53 := by
  unfold ratioToFloatFP
  rw [rv34]
  rw [floatRound_eval ((3:ℚ)/4) (-1) 6755399441055744 (by norm_num) (by norm_num)
    (pyRound_eval_lo _ 6755399441055744 (by norm_num) (by norm_num))]
  norm_num

/-- Binary64 value of the ratio 4:3: the double produced by the true
division in `_ratio_to_float`, as an exact rational. -/
theorem flv43 : ratioToFloatFP ("4:3") = (12009599006321322:ℚ) / 2 ^ 53 := by
  unfold ratioToFloatFP
  rw [rv43]
  rw [floatRound_eval ((4:ℚ)/3) (0) 6004799503160661 (by norm_num) (by norm_num)
    (pyRound_eval_lo _ 6004799503160661 (by norm_num) (by norm_num))]
  norm_num

/-- Binary64 value of the ratio 4:5: the double produced by the true
division in `_ratio_to_float`, as an exact rational. -/
theorem flv45 : ratioToFloatFP ("4:5") = (7205759403792794:ℚ) / 2 ^ 53 := by
  unfold ratioToFloatFP
  rw [rv45]
  rw [floatRound_eval ((4:ℚ)/5) (-1) 7205759403792794 (by norm_num) (by norm_num)
    (pyRound_eval_hi _ 7205759403792793 (by norm_num) (by norm_num))]
  norm_num

/-- Binary64 value of the ratio 5:4: the double produced by the true
division in `_ratio_to_float`, as an exact rational. -/
theorem flv54 : ratioToFloatFP ("5:4") = (11258999068426240:ℚ) / 2 ^ 53 := by
  unfold ratioToFloatFP
  rw [rv54]
  rw [floatRound_eval ((5:ℚ)/4) (0) 5629499534213120 (by norm_num) (by norm_num)
    (pyRound_eval_lo _ 5629499534213120 (by norm_num) (by norm_num))]
  norm_num

/-- Binary64 value of the ratio 9:16: the double produced by the true
division in `_ratio_to_float`, as an exact rational. -/
theorem flv916 : ratioToFloatFP ("9:16") = (5066549580791808:ℚ) / 2 ^ 53 := by
  unfold ratioToFloatFP
  rw [rv916]
  rw [floatRound_eval ((9:ℚ)/16) (-1) 5066549580791808 (by norm_num) (by norm_num)
    (pyRound_eval_lo _ 5066549580791808 (by norm_num) (by norm_num))]
  norm_num

/-- Binary64 value of the ratio 16:9: the double produced by the true
division in `_ratio_to_float`, as an exact rational. -/
theorem flv169 : ratioToFloatFP ("16:9") = (16012798675095096:ℚ) / 2 ^ 53 := by
  unfold ratioToFloatFP
  rw [rv169]
  rw [floatRound_eval ((16:ℚ)/9) (0) 8006399337547548 (by norm_num) (by norm_num)
    (pyRound_eval_lo _ 8006399337547548 (by norm_num) (by norm_num))]
  norm_num

/-- Binary64 value of the ratio 21:9: the double produced by the true
division in `_ratio_to_float`, as an exact rational. -/
theorem flv219 : ratioToFloatFP ("21:9") = (21016798261062316:ℚ) / 2 ^ 53 := by
  unfold ratioToFloatFP
  rw [rv219]
  rw [floatRound_eval ((7:ℚ)/3) (1) 5254199565265579 (by norm_num) (by norm_num)
    (pyRound_eval_hi _ 5254199565265578 (by norm_num) (by norm_num))]
  norm_num

/-- Float difference computed by the loop at current ratio
`float(17/24)` for the ratio 1:1. -/
theorem dfp11 : diffToFP ((6380099472108203:ℚ) / 2 ^ 53) ("1:1") =
    (2627099782632789:ℚ) / 2 ^ 53 := by
  unfold diffToFP
  rw [flv11]
  have hsub : (6380099472108203:ℚ) / 2 ^ 53 - (9007199254740992:ℚ) / 2 ^ 53 =
      -((2627099782632789:ℚ) / 2 ^ 53) := by norm_num
  rw [hsub, floatRound_neg, abs_neg, floatRound_fix _ 5254199565265578 (-2) (by norm_num) (by norm_num)
    (by push_cast; norm_num)]
  rw [abs_of_pos (by norm_num)]

/-- Float difference computed by the loop at current ratio
`float(17/24)` for the ratio 2:3. -/
theorem dfp23 : diffToFP ((6380099472108203:ℚ) / 2 ^ 53) ("2:3") =
    (375299968947542:ℚ) / 2 ^ 53 := by
  unfold diffToFP
  rw [flv23]
  have hsub : (6380099472108203:ℚ) / 2 ^ 53 - (6004799503160661:ℚ) / 2 ^ 53 =
      (375299968947542:ℚ) / 2 ^ 53 := by norm_num
  rw [hsub, floatRound_fix _ 6004799503160672 (-5) (by norm_num) (by norm_num)
    (by push_cast; norm_num)]
  rw [abs_of_pos (by norm_num)]

/-- Float difference computed by the loop at current ratio
`float(17/24)` for the ratio 3:2. -/
theorem dfp32 : diffToFP ((6380099472108203:ℚ) / 2 ^ 53) ("3:2") =
    (7130699410003285:ℚ) / 2 ^ 53 := by
  unfold diffToFP
  rw [flv32]
  have hsub : (6380099472108203:ℚ) / 2 ^ 53 - (13510798882111488:ℚ) / 2 ^ 53 =
      -((7130699410003285:ℚ) / 2 ^ 53) := by norm_num
  rw [hsub, floatRound_neg, abs_neg, floatRound_fix _ 7130699410003285 (-1) (by norm_num) (by norm_num)
    (by push_cast; norm_num)]
  rw [abs_of_pos (by norm_num)]

/-- Float difference computed by the loop at current ratio
`float(17/24)` for the ratio 3:4. -/
theorem dfp34 : diffToFP ((6380099472108203:ℚ) / 2 ^ 53) ("3:4") =
    (375299968947541:ℚ) / 2 ^ 53 := by
  unfold diffToFP
  rw [flv34]
  have hsub : (6380099472108203:ℚ) / 2 ^ 53 - (6755399441055744:ℚ) / 2 ^ 53 =
      -((375299968947541:ℚ) / 2 ^ 53) := by norm_num
  rw [hsub, floatRound_neg, abs_neg, floatRound_fix _ 6004799503160656 (-5) (by norm_num) (by norm_num)
    (by push_cast; norm_num)]
  rw [abs_of_pos (by norm_num)]

/-- Float difference computed by the loop at current ratio
`float(17/24)` for the ratio 4:3. -/
theorem dfp43 : diffToFP ((6380099472108203:ℚ) / 2 ^ 53) ("4:3") =
    (5629499534213119:ℚ) / 2 ^ 53 := by
  unfold diffToFP
  rw [flv43]
  have hsub : (6380099472108203:ℚ) / 2 ^ 53 - (12009599006321322:ℚ) / 2 ^ 53 =
      -((5629499534213119:ℚ) / 2 ^ 53) := by norm_num
  rw [hsub, floatRound_neg, abs_neg, floatRound_fix _ 5629499534213119 (-1) (by norm_num) (by norm_num)
    (by push_cast; norm_num)]
  rw [abs_of_pos (by norm_num)]

/-- Float difference computed by the loop at current ratio
`float(17/24)` for the ratio 4:5. -/
theorem dfp45 : diffToFP ((6380099472108203:ℚ) / 2 ^ 53) ("4:5") =
    (825659931684591:ℚ) / 2 ^ 53 := by
  unfold diffToFP
  rw [flv45]
  have hsub : (6380099472108203:ℚ) / 2 ^ 53 - (7205759403792794:ℚ) / 2 ^ 53 =
      -((825659931684591:ℚ) / 2 ^ 53) := by norm_num
  rw [hsub, floatRound_neg, abs_neg, floatRound_fix _ 6605279453476728 (-4) (by norm_num) (by norm_num)
    (by push_cast; norm_num)]
  rw [abs_of_pos (by norm_num)]

/-- Float difference computed by the loop at current ratio
`float(17/24)` for the ratio 5:4. -/
theorem dfp54 : diffToFP ((6380099472108203:ℚ) / 2 ^ 53) ("5:4") =
    (4878899596318037:ℚ) / 2 ^ 53 := by
  unfold diffToFP
  rw [flv54]
  have hsub : (6380099472108203:ℚ) / 2 ^ 53 - (11258999068426240:ℚ) / 2 ^ 53 =
      -((4878899596318037:ℚ) / 2 ^ 53) := by norm_num
  rw [hsub, floatRound_neg, abs_neg, floatRound_fix _ 4878899596318037 (-1) (by norm_num) (by norm_num)
    (by push_cast; norm_num)]
  rw [abs_of_pos (by norm_num)]

/-- Float difference computed by the loop at current ratio
`float(17/24)` for the ratio 9:16. -/
theorem dfp916 : diffToFP ((6380099472108203:ℚ) / 2 ^ 53) ("9:16") =
    (1313549891316395:ℚ) / 2 ^ 53 := by
  unfold diffToFP
  rw [flv916]
  have hsub : (6380099472108203:ℚ) / 2 ^ 53 - (5066549580791808:ℚ) / 2 ^ 53 =
      (1313549891316395:ℚ) / 2 ^ 53 := by norm_num
  rw [hsub, floatRound_fix _ 5254199565265580 (-3) (by norm_num) (by norm_num)
    (by push_cast; norm_num)]
  rw [abs_of_pos (by norm_num)]

/-- Float difference computed by the loop at current ratio
`float(17/24)` for the ratio 16:9. -/
theorem dfp169 : diffToFP ((6380099472108203:ℚ) / 2 ^ 53) ("16:9") =
    (9632699202986892:ℚ) / 2 ^ 53 := by
  unfold diffToFP
  rw [flv169]
  have hsub : (6380099472108203:ℚ) / 2 ^ 53 - (16012798675095096:ℚ) / 2 ^ 53 =
      -((9632699202986893:ℚ) / 2 ^ 53) := by norm_num
  rw [hsub, floatRound_neg, abs_neg, floatRound_eval _ (0) 4816349601493446 (by norm_num) (by norm_num)
    (pyRound_eval_half_even _ 4816349601493446 (by norm_num) (by norm_num))]
  rw [abs_of_pos (by positivity)]
  norm_num

/-- Float difference computed by the loop at current ratio
`float(17/24)` for the ratio 21:9. -/
theorem dfp219 : diffToFP ((6380099472108203:ℚ) / 2 ^ 53) ("21:9") =
    (14636698788954112:ℚ) / 2 ^ 53 := by
  unfold diffToFP
  rw [flv219]
  have hsub : (6380099472108203:ℚ) / 2 ^ 53 - (21016798261062316:ℚ) / 2 ^ 53 =
      -((14636698788954113:ℚ) / 2 ^ 53) := by norm_num
  rw [hsub, floatRound_neg, abs_neg, floatRound_eval _ (0) 7318349394477056 (by norm_num) (by norm_num)
    (pyRound_eval_half_even _ 7318349394477056 (by norm_num) (by norm_num))]
  rw [abs_of_pos (by positivity)]
  norm_num

/-- At current ratio `float(17/24)` the float loop strictly prefers "3:4":
its rounded difference is one unit in the last place below the difference
to "2:3" and far below every other ratio. -/
theorem fcrCoreFP_1724 : fcrCoreFP ((6380099472108203:ℚ) / 2 ^ 53) = "3:4" := by
  apply fcrCoreFP_eq_of_unique _ ("3:4") (by decide)
  intro w hw hne
  simp only [SUPPORTED_RATIOS, List.mem_cons, List.not_mem_nil, or_false]
    at hw
  rcases hw with rfl | rfl | rfl | rfl | rfl | rfl | rfl | rfl | rfl | rfl
  · rw [dfp34, dfp11]
    norm_num
  · rw [dfp34, dfp23]
    norm_num
  · rw [dfp34, dfp32]
    norm_num
  · exact absurd rfl hne
  · rw [dfp34, dfp43]
    norm_num
  · rw [dfp34, dfp45]
    norm_num
  · rw [dfp34, dfp54]
    norm_num
  · rw [dfp34, dfp916]
    norm_num
  · rw [dfp34, dfp169]
    norm_num
  · rw [dfp34, dfp219]
    norm_num


/-- C8 counterexample: at width 17, height 24 the exact quotient 17/24 is
equidistant (exactly 1/24) from the values of "2:3" and "3:4", and "2:3"
comes first in `SUPPORTED_RATIOS`, so minimal-exact-difference with
first-match tie-breaking demands "2:3"; but in the binary64 arithmetic
the code actually performs the rounded difference to "3:4" is one unit in
the last place below the rounded difference to "2:3", and the code
returns "3:4". -/
theorem c8_counterexample :
    find_closest_ratio_fp 17 24 = "3:4" ∧
    diffTo ((17:ℚ)/24) ("2:3") = 1/24 ∧
    diffTo ((17:ℚ)/24) ("3:4") = 1/24 ∧
    SUPPORTED_RATIOS.indexOf ("2:3") < SUPPORTED_RATIOS.indexOf ("3:4") ∧
    ("3:4" : String) ≠ "2:3" ∧
    diffToFP (floatRound ((17:ℚ)/24)) ("3:4") <
      diffToFP (floatRound ((17:ℚ)/24)) ("2:3") := by
  refine ⟨?_, ?_, ?_, by decide, by decide, ?_⟩
  · unfold find_closest_ratio_fp
    rw [if_neg (by decide)]
    have hc : ((17:Int):ℚ) / ((24:Int):ℚ) = (17:ℚ)/24 := by norm_num
    rw [hc, flc1724]
    exact fcrCoreFP_1724
  · simp only [diffTo, rv23]
    norm_num
  · simp only [diffTo, rv34]
    norm_num
  · rw [flc1724, dfp34, dfp23]
    norm_num

/-- C8 (amended): `find_closest_ratio` returns "1:1" whenever width ≤ 0 or
height ≤ 0 (including negatives); otherwise it returns a member of the
fixed 10-ratio set whose binary64 difference from the double
`width / height` — the quantity the code actually minimises — is minimal,
with ties in that float comparison resolved in favour of the earlier entry
in the fixed iteration order of `SUPPORTED_RATIOS`.  (The original claim
read the minimisation over exact real differences; rounding can move the
comparison at exact-tie inputs, see the counterexample.) -/
theorem c8_find_closest_ratio_amended (w h : Int) :
    (w ≤ 0 ∨ h ≤ 0 → find_closest_ratio_fp w h = "1:1") ∧
    (0 < w → 0 < h →
      find_closest_ratio_fp w h ∈ SUPPORTED_RATIOS ∧
      (∀ r ∈ SUPPORTED_RATIOS,
        diffToFP (floatRound ((w:ℚ)/(h:ℚ))) (find_closest_ratio_fp w h) ≤
          diffToFP (floatRound ((w:ℚ)/(h:ℚ))) r) ∧
      (∀ r ∈ SUPPORTED_RATIOS,
        diffToFP (floatRound ((w:ℚ)/(h:ℚ))) r =
            diffToFP (floatRound ((w:ℚ)/(h:ℚ))) (find_closest_ratio_fp w h) →
        SUPPORTED_RATIOS.indexOf (find_closest_ratio_fp w h) ≤
          SUPPORTED_RATIOS.indexOf r)) := by
  constructor
  · intro hdeg
    unfold find_closest_ratio_fp
    rw [if_pos hdeg]
  · intro hw hh
    have hne : ¬ (w ≤ 0 ∨ h ≤ 0) := by push_neg; exact ⟨hw, hh⟩
    unfold find_closest_ratio_fp
    rw [if_neg hne]
    obtain ⟨m, hm1, hm2⟩ := fcrCoreFP_eq_argmin (floatRound ((w:ℚ)/(h:ℚ)))
    have hmem : m ∈ SUPPORTED_RATIOS.argmin
        (diffToFP (floatRound ((w:ℚ)/(h:ℚ)))) := by
      rw [Option.mem_def]
      exact hm1
    rw [hm2]
    refine ⟨List.argmin_mem hmem, ?_, ?_⟩
    · intro r hr
      exact List.le_of_mem_argmin hr hmem
    · intro r hr heq
      exact List.index_of_argmin hmem hr (le_of_eq heq)

/-- Witness for C8 at concrete inputs: a positive case and a degenerate
(negative) case. -/
theorem c8_find_closest_ratio_amended_witness :
    find_closest_ratio_fp 16 9 ∈ SUPPORTED_RATIOS ∧
    find_closest_ratio_fp (-3) 5 = "1:1" :=
  ⟨((c8_find_closest_ratio_amended 16 9).2 (by decide) (by decide)).1,
   (c8_find_closest_ratio_amended (-3) 5).1 (by decide)⟩

/- ------------------------------------------------------------------ -/
/- providers.py — GPTGodProvider model-name / resolution handling     -/
/- ------------------------------------------------------------------ -/

/-- Python's `str.replace(pat, "")` (left-to-right, non-overlapping
removal of every occurrence), on character lists.  The fuel argument,
instantiated with the list length, only serves structural termination;
one unit is spent per scanned or matched position. -/
def pyReplaceFuel (p : List Char) : Nat → List Char → List Char
  | _, [] => []
  | 0, c :: rest => c :: rest
  | fuel + 1, c :: rest =>
    if p.isPrefixOf (c :: rest) then
      pyReplaceFuel p fuel ((c :: rest).drop p.length)
    else c :: pyReplaceFuel p fuel rest

/-- Python's `s.replace(pat, "")` on strings. -/
def pyRemove (s pat : String) : String :=
  ⟨pyReplaceFuel pat.data s.data.length s.data⟩

/-- A decidable occurrence test: does `pat` occur as a contiguous
subsequence of `l`? -/
def occursB (pat : List Char) : List Char → Bool
  | [] => pat.isPrefixOf []
  | c :: rest => pat.isPrefixOf (c :: rest) || occursB pat rest

/-- `GPTGodProvider.__init__`: default the model id, then strip every
`-2k` and `-4k` occurrence (`str.replace` with empty replacement). -/
def gptgodInitBaseModel (model_id : String) : String :=
  let base_model := if model_id = "" then "gemini-3-pro-image-preview"
    else model_id
  pyRemove (pyRemove base_model ("-2k")) ("-4k")

/-- `GPTGodProvider._get_model_for_resolution`. -/
def GPTGod_get_model_for_resolution (base_model_id : String)
    (width height : Int) : String :=
  if width ≥ 4096 ∨ height ≥ 4096 then base_model_id ++ "-4k"
  else if width ≥ 2048 ∨ height ≥ 2048 then base_model_id ++ "-2k"
  else base_model_id

/-- The resolution suffix the provider appends (empty for the 1K tier). -/
def gptgodSuffix (width height : Int) : String :=
  if width ≥ 4096 ∨ height ≥ 4096 then "-4k"
  else if width ≥ 2048 ∨ height ≥ 2048 then "-2k"
  else ""

theorem string_append_empty (s : String) : s ++ "" = s := by
  cases s with
  | mk d =>
    show String.mk (d ++ []) = String.mk d
    rw [List.append_nil]

/-- `occursB` is a sound occurrence test: if it is `false`, the pattern
is a prefix of no suffix of the list. -/
theorem no_occ_of_occursB_false (p : List Char) :
    ∀ l : List Char, occursB p l = false → ∀ i, ¬ p <+: l.drop i := by
  intro l
  induction l with
  | nil =>
      intro hocc i hpre
      rw [List.drop_nil] at hpre
      have : p.isPrefixOf ([] : List Char) = true :=
        List.isPrefixOf_iff_prefix.mpr hpre
      rw [occursB] at hocc
      rw [this] at hocc
      exact absurd hocc (by simp)
  | cons c rest ih =>
      intro hocc i hpre
      rw [occursB, Bool.or_eq_false_iff] at hocc
      match i with
      | 0 =>
          have : p.isPrefixOf (c :: rest) = true :=
            List.isPrefixOf_iff_prefix.mpr hpre
          rw [this] at hocc
          exact absurd hocc.1 (by simp)
      | Nat.succ j =>
          exact ih hocc.2 j hpre

/-- Removing a pattern that never occurs leaves the list unchanged. -/
theorem pyReplaceFuel_no_occ (p : List Char) :
    ∀ (l : List Char) (fuel : Nat), (∀ i, ¬ p <+: l.drop i) →
      pyReplaceFuel p fuel l = l := by
  intro l
  induction l with
  | nil => intro fuel _; cases fuel <;> rfl
  | cons c rest ih =>
      intro fuel hno
      match fuel with
      | 0 => rfl
      | Nat.succ f =>
          have hhead : ¬ p <+: (c :: rest) := by
            have := hno 0
            rwa [List.drop_zero] at this
          have hb : p.isPrefixOf (c :: rest) = false := by
            cases hpb : p.isPrefixOf (c :: rest) with
            | false => rfl
            | true => exact absurd (List.isPrefixOf_iff_prefix.mp hpb) hhead
          rw [pyReplaceFuel, hb]
          simp only [Bool.false_eq_true, if_false]
          rw [ih f fun i => hno (i + 1)]

/-- Removing a pattern whose only occurrence is the appended final copy
strips exactly that copy. -/
theorem pyReplaceFuel_strip_final (p : List Char) (hp : p ≠ []) :
    ∀ (base : List Char) (fuel : Nat), (base ++ p).length ≤ fuel →
      (∀ i, i < base.length → ¬ p <+: ((base ++ p).drop i)) →
      pyReplaceFuel p fuel (base ++ p) = base := by
  intro base
  induction base with
  | nil =>
      intro fuel hfuel _
      obtain ⟨c, p', hcp⟩ := List.exists_cons_of_ne_nil hp
      simp only [List.nil_append]
      match fuel, hfuel with
      | Nat.succ f, _ =>
          rw [hcp, pyReplaceFuel,
            List.isPrefixOf_iff_prefix.mpr List.prefix_rfl]
          simp only [if_true]
          rw [show ((c :: p').drop (c :: p').length) = [] from
            List.drop_length _]
          cases f <;> rfl
      | 0, hf =>
          rw [hcp] at hf
          simp at hf
  | cons c bs ih =>
      intro fuel hfuel honly
      match fuel, hfuel with
      | Nat.succ f, hf =>
          have hhead : ¬ p <+: ((c :: bs) ++ p) := by
            have := honly 0 (by simp)
            rwa [List.drop_zero] at this
          have hb : p.isPrefixOf ((c :: bs) ++ p) = false := by
            cases hpb : p.isPrefixOf ((c :: bs) ++ p) with
            | false => rfl
            | true => exact absurd (List.isPrefixOf_iff_prefix.mp hpb) hhead
          show pyReplaceFuel p (f + 1) (c :: (bs ++ p)) = c :: bs
          rw [pyReplaceFuel]
          rw [show p.isPrefixOf (c :: (bs ++ p)) = false from hb]
          simp only [Bool.false_eq_true, if_false]
          congr 1
          apply ih f (by simp at hf ⊢; omega)
          intro i hi
          have := honly (i + 1) (by simp; omega)
          rwa [show ((c :: bs) ++ p).drop (i + 1) = (bs ++ p).drop i from
            rfl] at this
      | 0, hf => simp at hf

/-- If a pattern occurs neither in `base` nor across the seam created by
appending it (the self-overlap condition), its only occurrence in
`base ++ p` is the final copy. -/
theorem no_straddle (p base : List Char)
    (hbase : ∀ i, ¬ p <+: base.drop i)
    (hself : ∀ L, 0 < L → L < p.length →
      p.drop L ≠ p.take (p.length - L)) :
    ∀ i, i < base.length → ¬ p <+: ((base ++ p).drop i) := by
  intro i hi hpre
  rw [List.drop_append_of_le_length (le_of_lt hi)] at hpre
  have hulen : 0 < (base.drop i).length := by
    rw [List.length_drop]; omega
  rcases le_or_lt p.length (base.drop i).length with hle | hgt
  · have h2 := List.prefix_iff_eq_take.mp hpre
    rw [List.take_append_eq_append_take, Nat.sub_eq_zero_of_le hle,
      List.take_zero, List.append_nil] at h2
    have : p <+: base.drop i := by
      rw [h2]; exact List.take_prefix _ _
    exact hbase i this
  · have h2 := List.prefix_iff_eq_take.mp hpre
    rw [List.take_append_eq_append_take,
      List.take_of_length_le (le_of_lt hgt)] at h2
    have hdrop : p.drop (base.drop i).length =
        p.take (p.length - (base.drop i).length) := by
      conv_lhs => rw [h2]
      exact List.drop_left _ _
    exact hself (base.drop i).length hulen hgt hdrop

/-- Occurrence-freeness is preserved by appending a tail in which the
pattern does not occur and over whose seam it cannot straddle. -/
theorem no_occ_append (q base tail : List Char)
    (hbase : ∀ i, ¬ q <+: base.drop i)
    (htail : ∀ j, ¬ q <+: tail.drop j)
    (hseam : ∀ L, 0 < L → L < q.length → ¬ q.drop L <+: tail) :
    ∀ i, ¬ q <+: (base ++ tail).drop i := by
  intro i hpre
  rcases lt_or_ge i base.length with hlt | hge
  · rw [List.drop_append_of_le_length (le_of_lt hlt)] at hpre
    have hulen : 0 < (base.drop i).length := by
      rw [List.length_drop]; omega
    rcases le_or_lt q.length (base.drop i).length with hle | hgt
    · have h2 := List.prefix_iff_eq_take.mp hpre
      rw [List.take_append_eq_append_take, Nat.sub_eq_zero_of_le hle,
        List.take_zero, List.append_nil] at h2
      have : q <+: base.drop i := by
        rw [h2]; exact List.take_prefix _ _
      exact hbase i this
    · have h2 := List.prefix_iff_eq_take.mp hpre
      rw [List.take_append_eq_append_take,
        List.take_of_length_le (le_of_lt hgt)] at h2
      have hdrop : q.drop (base.drop i).length =
          tail.take (q.length - (base.drop i).length) := by
        conv_lhs => rw [h2]
        exact List.drop_left _ _
      have : q.drop (base.drop i).length <+: tail := by
        rw [hdrop]; exact List.take_prefix _ _
      exact hseam (base.drop i).length hulen hgt this
  · rw [List.drop_append_eq_append_drop,
      List.drop_eq_nil_of_le hge, List.nil_append] at hpre
    exact htail (i - base.length) hpre

/-- String-level wrapper: `str.replace(pat, "")` is the identity when the
pattern does not occur. -/
theorem pyRemove_no_occ (s pat : String)
    (hno : occursB pat.data s.data = false) : pyRemove s pat = s := by
  unfold pyRemove
  cases s with
  | mk d =>
      congr 1
      exact pyReplaceFuel_no_occ pat.data d _
        (no_occ_of_occursB_false pat.data d hno)

/-- String-level wrapper: `str.replace(pat, "")` strips exactly a final
copy of the pattern that cannot otherwise occur. -/
theorem pyRemove_strip_final (base pat : String) (hp : pat.data ≠ [])
    (hno : occursB pat.data base.data = false)
    (hself : ∀ L, 0 < L → L < pat.data.length →
      pat.data.drop L ≠ pat.data.take (pat.data.length - L)) :
    pyRemove (base ++ pat) pat = base := by
  unfold pyRemove
  rw [String.ext_iff]
  show pyReplaceFuel pat.data (base ++ pat).data.length (base ++ pat).data
      = base.data
  rw [String.data_append]
  exact pyReplaceFuel_strip_final pat.data hp base.data _ le_rfl
    (no_straddle pat.data base.data
      (no_occ_of_occursB_false pat.data base.data hno) hself)

theorem pyRemove_no_occ_of (s pat : String)
    (hno : ∀ i, ¬ pat.data <+: s.data.drop i) : pyRemove s pat = s := by
  unfold pyRemove
  cases s with
  | mk d =>
      congr 1
      exact pyReplaceFuel_no_occ pat.data d _ hno

/-- The wire model name is always the stored base id plus the tier
suffix. -/
theorem get_model_eq_append (b : String) (w h : Int) :
    GPTGod_get_model_for_resolution b w h = b ++ gptgodSuffix w h := by
  unfold GPTGod_get_model_for_resolution gptgodSuffix
  split_ifs <;> first | rfl | exact (string_append_empty b).symm

/-- C9 (amended): the wire model name is the configured id with every
`-2k`/`-4k` occurrence removed (Python `str.replace`, not just a trailing
suffix), plus exactly one resolution suffix per the 4096/2048 thresholds;
for ids carrying the patterns at most as one trailing suffix this equals
the suffix-stripped base id, and repeated calls can never stack
suffixes. -/
theorem c9_gptgod_model_name_amended :
    (∀ m : String, m ≠ "" → ∀ w h : Int,
      GPTGod_get_model_for_resolution (gptgodInitBaseModel m) w h =
        pyRemove (pyRemove m ("-2k")) ("-4k") ++ gptgodSuffix w h) ∧
    (∀ m : String, occursB ("-2k").data m.data = false →
      occursB ("-4k").data m.data = false →
      pyRemove (pyRemove m ("-2k")) ("-4k") = m) ∧
    (∀ base : String, base ≠ "" →
      occursB ("-2k").data base.data = false →
      occursB ("-4k").data base.data = false →
      ∀ w h : Int,
        GPTGod_get_model_for_resolution
            (gptgodInitBaseModel (base ++ ("-2k"))) w h =
          base ++ gptgodSuffix w h ∧
        GPTGod_get_model_for_resolution
            (gptgodInitBaseModel (base ++ ("-4k"))) w h =
          base ++ gptgodSuffix w h ∧
        GPTGod_get_model_for_resolution (gptgodInitBaseModel base) w h =
          base ++ gptgodSuffix w h) := by
  refine ⟨?_, ?_, ?_⟩
  · intro m hm w h
    simp only [gptgodInitBaseModel]
    rw [if_neg hm]
    exact get_model_eq_append _ w h
  · intro m h2 h4
    rw [pyRemove_no_occ m ("-2k") h2, pyRemove_no_occ m ("-4k") h4]
  · intro base hb h2 h4 w h
    have hb2 : ∀ i, ¬ ("-2k").data <+: base.data.drop i :=
      no_occ_of_occursB_false _ _ h2
    have hb4 : ∀ i, ¬ ("-4k").data <+: base.data.drop i :=
      no_occ_of_occursB_false _ _ h4
    have hne2 : base ++ ("-2k") ≠ "" := by
      rw [Ne, String.ext_iff, String.data_append]
      intro hcontra
      exact absurd (List.append_eq_nil.mp hcontra).2 (by decide)
    have hne4 : base ++ ("-4k") ≠ "" := by
      rw [Ne, String.ext_iff, String.data_append]
      intro hcontra
      exact absurd (List.append_eq_nil.mp hcontra).2 (by decide)
    have hself2 : ∀ L, 0 < L → L < ("-2k").data.length →
        ("-2k").data.drop L ≠ ("-2k").data.take (("-2k").data.length - L) := by
      intro L h0 hlt
      rw [show ("-2k").data.length = 3 from rfl] at hlt ⊢
      interval_cases L <;> decide
    have hself4 : ∀ L, 0 < L → L < ("-4k").data.length →
        ("-4k").data.drop L ≠ ("-4k").data.take (("-4k").data.length - L) := by
      intro L h0 hlt
      rw [show ("-4k").data.length = 3 from rfl] at hlt ⊢
      interval_cases L <;> decide
    have hinit2 : gptgodInitBaseModel (base ++ ("-2k")) = base := by
      simp only [gptgodInitBaseModel]
      rw [if_neg hne2,
        pyRemove_strip_final base ("-2k") (by decide) h2 hself2,
        pyRemove_no_occ base ("-4k") h4]
    have hocc24 : ∀ i, ¬ ("-2k").data <+: (base ++ ("-4k")).data.drop i := by
      rw [String.data_append]
      refine no_occ_append ("-2k").data base.data ("-4k").data hb2
        (no_occ_of_occursB_false _ _ (by decide)) ?_
      intro L h0 hlt
      rw [show ("-2k").data.length = 3 from rfl] at hlt
      interval_cases L <;> decide
    have hinit4 : gptgodInitBaseModel (base ++ ("-4k")) = base := by
      simp only [gptgodInitBaseModel]
      rw [if_neg hne4, pyRemove_no_occ_of _ _ hocc24,
        pyRemove_strip_final base ("-4k") (by decide) h4 hself4]
    have hinitb : gptgodInitBaseModel base = base := by
      simp only [gptgodInitBaseModel]
      rw [if_neg hb, pyRemove_no_occ base ("-2k") h2,
        pyRemove_no_occ base ("-4k") h4]
    exact ⟨by rw [hinit2]; exact get_model_eq_append base w h,
      by rw [hinit4]; exact get_model_eq_append base w h,
      by rw [hinitb]; exact get_model_eq_append base w h⟩

/-- Witness for C9's amended theorem at the concrete model id
"gemini-3-pro-image-preview-2k" (a clean base with one trailing suffix)
at resolution 2048 x 1024: the wire model is the base with a single
"-2k" suffix. -/
theorem c9_gptgod_model_name_amended_witness :
    GPTGod_get_model_for_resolution
        (gptgodInitBaseModel ("gemini-3-pro-image-preview" ++ ("-2k")))
        2048 1024 =
      "gemini-3-pro-image-preview" ++ gptgodSuffix 2048 1024 :=
  ((c9_gptgod_model_name_amended.2.2 ("gemini-3-pro-image-preview")
    (by decide) (by decide) (by decide) 2048 1024).1)

/-- Counterexample to C9 as stated: the configured id "a-2k-b" carries no
trailing `-2k`/`-4k` suffix, so at the 1K tier the claim predicts the
bare id "a-2k-b" on the wire; the code strips the interior occurrence and
sends "a-b". -/
theorem c9_counterexample :
    GPTGod_get_model_for_resolution (gptgodInitBaseModel ("a-2k-b"))
        100 100 = "a-b" ∧
    GPTGod_get_model_for_resolution (gptgodInitBaseModel ("a-2k-b"))
        100 100 ≠ "a-2k-b" := by
  constructor <;> decide

/- ------------------------------------------------------------------ -/
/- providers.py — ProviderFactory                                     -/
/- ------------------------------------------------------------------ -/

/-- Python's `str.lower()` (ASCII range, which covers every provider-type
string compared against). -/
def pyLower (s : String) : String :=
  ⟨s.data.map Char.toLower⟩

/-- `ProviderConfig` from providers.py. -/
structure ProviderConfig where
  provider_type : String
  api_key : String
  base_url : String
  model_id : String

/-- The three provider classes `ProviderFactory.create_provider` can
construct. -/
inductive ProviderKind
  | yunwu
  | openrouter
  | gptgod
  deriving DecidableEq

/-- `ProviderFactory.create_provider`: dispatch on the lower-cased
provider type; "google" and unknown types raise. -/
def ProviderFactory_create_provider (config : ProviderConfig) :
    Except String ProviderKind :=
  let provider_type := pyLower config.provider_type
  if provider_type = "yunwu" then .ok .yunwu
  else if provider_type = "openrouter" then .ok .openrouter
  else if provider_type = "gptgod" then .ok .gptgod
  else if provider_type = "google" then
    .error "Google provider handled by gemini_api.py"
  else .error ("Unknown provider type: " ++ config.provider_type)

/-- C10: the factory returns a YunwuProvider, OpenRouterProvider or
GPTGodProvider exactly when the lower-cased provider_type is "yunwu",
"openrouter" or "gptgod" respectively, and raises for every other
provider_type, including "google". -/
theorem c10_provider_factory (config : ProviderConfig) :
    (ProviderFactory_create_provider config = .ok .yunwu ↔
      pyLower config.provider_type = "yunwu") ∧
    (ProviderFactory_create_provider config = .ok .openrouter ↔
      pyLower config.provider_type = "openrouter") ∧
    (ProviderFactory_create_provider config = .ok .gptgod ↔
      pyLower config.provider_type = "gptgod") ∧
    (pyLower config.provider_type ∉
        (["yunwu", "openrouter", "gptgod"] : List String) →
      ∃ e, ProviderFactory_create_provider config = .error e) ∧
    (pyLower config.provider_type = "google" →
      ∃ e, ProviderFactory_create_provider config = .error e) := by
  unfold ProviderFactory_create_provider
  dsimp only
  split_ifs with h1 h2 h3 h4 <;>
    refine ⟨?_, ?_, ?_, ?_, ?_⟩ <;> simp_all

/-- Witness for C10 at concrete configs: a mixed-case "YunWu" constructs
the Yunwu provider, and "google" raises. -/
theorem c10_provider_factory_witness :
    ProviderFactory_create_provider ⟨"YunWu", "k", "", ""⟩ = .ok .yunwu ∧
    ∃ e, ProviderFactory_create_provider ⟨"google", "k", "", ""⟩ =
      .error e :=
  ⟨(c10_provider_factory ⟨"YunWu", "k", "", ""⟩).1.mpr (by decide),
   (c10_provider_factory ⟨"google", "k", "", ""⟩).2.2.2.2 (by decide)⟩

/- ------------------------------------------------------------------ -/
/- gemini_api.py - prompt compositor (_build_prompt,                  -/
/- _build_edit_prompt); the template texts are transcribed verbatim   -/
/- from the source.                                                   -/
/- ------------------------------------------------------------------ -/

def editTemplateFinalize : String := "COMPOSITE FINALIZATION - Unify entire image into seamless photorealistic result:\n\nCRITICAL CONTEXT:\nThis image was created through multiple compositing steps (adding objects, inpainting, etc.).\nYour task: Make it look like ONE UNIFIED PHOTOGRAPH, not a collage.\nRemove ALL visible seams, color mismatches, lighting inconsistencies.\n\nCOMMON PROBLEMS TO FIX:\n1. Objects have different color temperatures (some warm, some cool)\n2. Brightness mismatches between added objects and original scene\n3. Contrast differences (some areas too contrasty, others too flat)\n4. Shadow inconsistencies (direction or hardness doesn\u0027t match)\n5. Visible compositing edges or halos around objects\n6. Objects don\u0027t feel grounded in the scene\n7. Overall image lacks cohesion - looks like separate pieces\n\nYOUR TASK - PROFESSIONAL COLOR GRADING & UNIFICATION:\nSTEP 1 - ANALYZE ENTIRE COMPOSITION:\n- Identify which areas look \u0027off\u0027 or disconnected\n- Find color temperature conflicts\n- Detect brightness/contrast mismatches\n- Look for unnatural edges or transitions\n\nSTEP 2 - UNIFIED LIGHTING:\n- Establish ONE dominant light direction for entire scene\n- Make ALL objects respect this light direction\n- Unify shadow hardness across all elements\n- Add missing ambient occlusion between objects\n- Strengthen contact shadows where objects meet surfaces\n\nSTEP 3 - COLOR HARMONY:\n- Choose ONE color temperature for the entire scene\n- Grade ALL objects to match this temperature\n- Create unified color palette - no outliers\n- Add subtle color spill between neighboring elements\n- Match saturation levels across all objects\n\nSTEP 4 - CONTRAST & EXPOSURE:\n- Unify exposure - no objects too bright or too dark\n- Match contrast levels between all elements\n- Balance highlights and shadows across scene\n- Create cohesive tonal range\n\nSTEP 5 - SEAMLESS INTEGRATION:\n- Blend ALL visible compositing edges\n- Remove halos, color fringing, or artifacts\n- Add atmospheric perspective if needed (distant = hazier)\n- Unify sharpness/blur across scene\n- Add subtle film grain or noise uniformly\n\nSTEP 6 - GROUNDING & REALISM:\n- Ensure all objects cast appropriate shadows\n- Add reflections where needed (floors, mirrors, glossy surfaces)\n- Create subtle light bounce between objects\n- Add depth cues (foreground sharper, background softer)\n- Make everything feel \u0027heavy\u0027 and physically present\n\nREAL-WORLD EXAMPLE:\nBEFORE: Room with added furniture - chair too warm, table too bright, \n        plant has harsh shadows while room has soft shadows, visible edge around lamp\nAFTER FINALIZATION:\n  → ALL objects color-graded to match room\u0027s cool daylight\n  → Chair brightness reduced to match room exposure\n  → ALL shadows softened to match ambient lighting\n  → Lamp edge blended perfectly\n  → Added contact shadows under all furniture\n  → Slight color spill from wooden floor onto chair legs\n  → Unified film grain over entire image\n  → Result: Looks like ONE photograph, not composite\n\nCRITICAL SUCCESS CRITERIA:\n✅ Image looks like ONE unified photograph\n✅ ALL objects respect same lighting direction\n✅ Consistent color temperature throughout\n✅ Matched contrast and exposure across all elements\n✅ NO visible compositing edges or seams\n✅ Shadows are consistent (direction, hardness, color)\n✅ Every object feels grounded and physically present\n✅ Overall color harmony - no jarring mismatches\n✅ Professional photorealistic result\nCRITICAL RULES:\n❌ NEVER leave color temperature conflicts\n❌ NEVER ignore exposure mismatches\n❌ NEVER skip shadow unification\n❌ NEVER leave visible compositing edges\n❌ NEVER keep objects that look \u0027pasted on\u0027\n❌ NEVER leave lighting direction conflicts\n\nREMEMBER:\nYou are a PROFESSIONAL COLORIST doing final grade.\nThis is the LAST STEP before client delivery.\nMake it PERFECT - unified, seamless, photorealistic.\nGoal: Viewer should NEVER suspect this was composited.\n"

def editMaskRefPartA : String := "🎯 CRITICAL: READ USER\u0027S PROMPT FIRST!\n━━━━━━━━━━━━━━━━━━━━━━━━━━━━━━━━━━━━━━━━━━━━━━━━━━━━━━━━\nUSER\u0027S INSTRUCTION (DO THIS EXACTLY!):\n\""

def editMaskRefPartB : String := "\"\n━━━━━━━━━━━━━━━━━━━━━━━━━━━━━━━━━━━━━━━━━━━━━━━━━━━━━━━━\n\nYOUR TASK - SIMPLE AND DIRECT:\n1. Read user\u0027s prompt above - THIS IS WHAT YOU MUST DO!\n2. Look at IMAGE 1 (reference) - find the object user wants\n3. Look at IMAGE 3 (mask - colored area) - this is WHERE to place it\n4. Look at IMAGE 2 (scene with sketch) - ERASE the sketch\n5. Place object from IMAGE 1 into the colored area from IMAGE 3\n6. Follow user\u0027s prompt for HOW to place it (sitting/standing/facing/etc)\n7. Relight object to match scene lighting\n\nWHAT YOU HAVE:\n• IMAGE 1 (REFERENCE) = The object user wants to add\n• IMAGE 2 (SCENE) = Where to add it (has colored sketch showing location)\n• IMAGE 3 (MASK) = Exact colored area for placement\n• USER PROMPT = Tells you WHAT and HOW\n\nCRITICAL RULES:\n🔴 RULE #1: USER\u0027S PROMPT IS LAW - Follow it EXACTLY!\n🔴 RULE #2: Place object in colored area from IMAGE 3 (mask)\n🔴 RULE #3: ERASE sketch completely - replace with real object\n🔴 RULE #4: Relight object to match IMAGE 2\u0027s lighting\n\nSIMPLE EXAMPLE:\n━━━━━━━━━━━━━━━━━━━━━━━━━━━━━━━━━━━━━━━━━━━━━━━━━━━━━━━━\nUSER PROMPT: \u0027добавь мужчину на траве в обведённом кругу\u0027\n\nWHAT YOU DO:\n1. Look at IMAGE 1 → find the man\n2. Look at IMAGE 3 → see the colored circle on grass\n3. Look at IMAGE 2 → see the sketch circle (erase it!)\n4. Place man from IMAGE 1 into circle area\n5. Make him ON THE GRASS (user said \u0027на траве\u0027)\n6. Erase colored circle sketch\n7. Relight man to match outdoor lighting\n8. Cast shadow on grass\n9. DONE - man is now on grass in that spot!\n━━━━━━━━━━━━━━━━━━━━━━━━━━━━━━━━━━━━━━━━━━━━━━━━━━━━━━━━\n\nHOW TO DO IT:\nSTEP 1 - READ USER PROMPT (at the top!):\n  → What object? (e.g., \u0027мужчину\u0027, \u0027chair\u0027, \u0027car\u0027)\n  → Where? (e.g., \u0027на траве\u0027, \u0027at desk\u0027, \u0027in corner\u0027)\n  → How? (e.g., \u0027standing\u0027, \u0027sitting\u0027, \u0027facing camera\u0027)\n\nSTEP 2 - FIND OBJECT IN IMAGE 1:\n  → Identify the object user wants\n  → Remember its shape, textures, details\n  → Ignore its background\n\nSTEP 3 - FIND LOCATION:\n  → IMAGE 3 (mask) shows colored area = exact spot\n  → IMAGE 2 shows sketch = rough guide (erase it!)\n\nSTEP 4 - PLACE OBJECT:\n  → Put object in colored area (from IMAGE 3)\n  → Follow user\u0027s prompt (orientation, pose, etc.)\n  → ERASE sketch completely\n\nSTEP 5 - MAKE IT REALISTIC:\n  → Relight object to match IMAGE 2\u0027s lighting\n  → Adjust colors to match scene\n  → Cast shadows (direction must match scene)\n  → Blend edges smoothly\n\nMORE EXAMPLES:\nExample 1 - \u0027Поставь этот стул в углу у окна\u0027:\n  → Find chair in IMAGE 1\n  → Place it in corner near window (colored area from IMAGE 3)\n  → Erase colored sketch\n  → Relight with window light\n  → Cast shadow\n  → DONE!\n\nExample 2 - \u0027Add this person sitting at the desk\u0027:\n  → Find person in IMAGE 1\n  → Place at desk (colored area)\n  → Make them SITTING (user said so!)\n  → Erase sketch\n  → Relight with office lights\n  → DONE!\n\nExample 3 - \u0027добавь мужчину на траве в обведённом кругу\u0027:\n  → Find man in IMAGE 1\n  → Place ON GRASS in circle area (IMAGE 3)\n  → Erase circle sketch\n  → Relight with outdoor lighting\n  → Cast shadow on grass\n  → DONE!\n\nWHAT YOU MUST DO:\n✅ Follow user\u0027s prompt EXACTLY\n✅ Place object in colored area (IMAGE 3)\n✅ ERASE sketch completely\n✅ Relight object to match scene\n✅ Cast shadows\n✅ Make it look photorealistic\n\nWHAT YOU MUST NOT DO:\n❌ NEVER ignore user\u0027s prompt\n❌ NEVER place object in wrong spot\n❌ NEVER keep sketch visible\n❌ NEVER forget shadows\n\nFINAL REMINDER:\n🔴 USER PROMPT (at top) = YOUR PRIMARY INSTRUCTION!\n🔴 Read it carefully and do EXACTLY what it says!\n🔴 If user says \u0027на траве\u0027 → place on grass!\n🔴 If user says \u0027sitting\u0027 → make them sit!\n🔴 If user says \u0027в обведённом кругу\u0027 → place in circled area!\n\n"

def editTemplateMask : String := "INPAINTING TASK - Replace sketch with photorealistic content:\n\nCONTEXT:\nUser drew a rough SKETCH on their image to show where they want NEW content.\nThe sketch is UGLY and TEMPORARY - it\u0027s just a guide.\nYour job: ERASE the sketch, CREATE beautiful realistic content in that spot.\n\nIMAGE 1 (PHOTO WITH SKETCH OVERLAY):\n- Original photo/render with user\u0027s sketch drawn on top\n- Sketch colors show LOCATION and rough SHAPE only\n- Sketch is NOT the final look - it will be DELETED\n\nIMAGE 2 (MASK - WHERE TO EDIT):\n- Black areas = DON\u0027T TOUCH (keep original)\n- Colored areas = SKETCH LOCATION (delete sketch, add new content)\n\nSTEP-BY-STEP PROCESS:\n1. Look at IMAGE 1 - see the ugly sketch user drew\n2. Look at IMAGE 2 - see WHERE the sketch is\n3. Read user\u0027s PROMPT - understand WHAT to create\n4. COMPLETELY ERASE the sketch from those areas\n5. CREATE photorealistic content matching the prompt\n6. Match original image\u0027s lighting, shadows, perspective, style\n7. Blend edges perfectly (no visible seams)\n\nREAL EXAMPLES:\nExample 1:\n  - User draws RED CIRCLE\n  - Prompt: \u0027add sunset light through window\u0027\n  - You do: DELETE red circle → CREATE realistic warm sunlight rays\n  - Final: Beautiful sunset light, NO red circle visible\n\nExample 2:\n  - User draws BLUE BLOB\n  - Prompt: \u0027add water puddle on floor\u0027\n  - You do: DELETE blue blob → CREATE realistic water with reflections\n  - Final: Real water puddle, NO blue blob visible\n\nExample 3:\n  - User draws GREEN SCRIBBLES\n  - Prompt: \u0027add plant in vase\u0027\n  - You do: DELETE green scribbles → CREATE detailed plant with leaves\n  - Final: Beautiful plant, NO scribbles visible\n\nCRITICAL RULES:\n❌ NEVER keep the sketch visible\n❌ NEVER \u0027improve\u0027 the sketch - DELETE it completely\n❌ NEVER leave construction lines, rough shapes, or color blobs\n✅ ALWAYS erase sketch 100% before creating new content\n✅ ALWAYS create photorealistic result\n✅ ALWAYS match original image lighting and style\n✅ ALWAYS blend seamlessly at edges\n✅ ALWAYS follow user\u0027s text prompt for WHAT to create\n\nREMEMBER:\nSketch = temporary guide (like construction lines in drawing)\nFinal image = professional result with NO sketch traces\nUser drew sketch to show LOCATION + rough IDEA\nYou create PHOTOREALISTIC version and REMOVE sketch completely\n"

def editTemplateRef : String := "PHOTOREALISTIC OBJECT INTEGRATION - Seamlessly blend reference into scene:\n\nCRITICAL CONTEXT:\nUser is NOT asking for simple copy-paste! They want PHOTOREALISTIC INTEGRATION.\nThe object from reference must look like it was PHOTOGRAPHED in the target scene.\nThis requires ADVANCED color grading, lighting match, shadow casting, and perspective correction.\n\nIMAGE 1 (REFERENCE - SOURCE OBJECT):\n- Contains the object/person to integrate into IMAGE 2\n- Extract its SHAPE and STRUCTURE (what it is)\n- IGNORE its original lighting, colors, and background\n- Think: \u0027I need this OBJECT, but I\u0027ll RELIGHT it for the new scene\u0027\n\nIMAGE 2 (TARGET SCENE - DESTINATION):\n- This is your PRIMARY reference for visual style\n- Analyze: lighting direction, color temperature, shadow hardness, ambient light\n- The object from IMAGE 1 must MATCH this scene\u0027s lighting 100%\n\nYOUR TASK - PROFESSIONAL COMPOSITING:\nSTEP 1 - LIGHTING ANALYSIS (IMAGE 2):\n- Light direction: Where are shadows pointing? (e.g., left side, top-right)\n- Light hardness: Sharp shadows = hard light, soft shadows = diffuse light\n- Color temperature: Warm (orange/yellow) or cool (blue/white)?\n- Ambient light: How bright are shadow areas?\n- Reflections: Are there glossy surfaces? What do they reflect?\n\nSTEP 2 - OBJECT EXTRACTION (IMAGE 1):\n- Identify the object shape, structure, materials\n- Forget its current lighting - you will RELIGHT it\n- Preserve textures and material properties (metal, wood, fabric, etc.)\n\nSTEP 3 - INTEGRATION (CRITICAL!):\nA. RELIGHTING:\n   - Apply IMAGE 2\u0027s light direction to the object\n   - Match light color temperature exactly\n   - Create shadows that match IMAGE 2\u0027s shadow style\n   - Add ambient occlusion in contact areas\nB. COLOR GRADING:\n   - Adjust object\u0027s colors to match IMAGE 2\u0027s color palette\n   - If IMAGE 2 is warm → warm the object\u0027s colors\n   - If IMAGE 2 is desaturated → reduce object\u0027s saturation\n   - Match overall brightness/exposure\nC. SHADOWS:\n   - Cast shadows from object onto IMAGE 2\u0027s surfaces\n   - Shadow direction MUST match IMAGE 2\u0027s existing shadows\n   - Shadow softness MUST match IMAGE 2\u0027s shadow hardness\n   - Add contact shadows (dark areas where object touches surface)\nD. PERSPECTIVE:\n   - Match camera angle from IMAGE 2\n   - Scale object appropriately for scene\n   - Ensure ground plane alignment\nE. REFLECTIONS & AMBIENT:\n   - If object is glossy → reflect IMAGE 2\u0027s environment\n   - Add ambient light bounce from IMAGE 2\u0027s surfaces\n   - Color spill: nearby colored surfaces affect object colors\n\nSTEP 4 - FINAL BLEND:\n- Edge softness: match IMAGE 2\u0027s sharpness/blur\n- Atmospheric perspective: distant objects are hazier\n- Depth of field: match IMAGE 2\u0027s focus plane\n- Film grain/noise: match IMAGE 2\u0027s texture\n\nREAL-WORLD EXAMPLE:\nIMAGE 1: Photo of a red chair (photographed outdoors, bright daylight)\nIMAGE 2: Dark moody interior with warm tungsten lights from left\nUSER: \u0027Add the chair by the window\u0027\nWRONG (copy-paste): Bright red chair with daylight look = looks fake!\nRIGHT (professional integration):\n  → Chair shape preserved\n  → BUT relit with warm tungsten light from left\n  → Red color adjusted to warm/darker tone matching room\n  → Soft shadow cast to the right (opposite of light)\n  → Contact shadow under chair legs (ambient occlusion)\n  → Slight warm color spill from wooden floor onto chair base\n  → Chair looks like it was PHOTOGRAPHED in this room\n\nCRITICAL SUCCESS CRITERIA:\n✅ Object MUST look like it was PHOTOGRAPHED in IMAGE 2\u0027s scene\n✅ Lighting on object MUST match IMAGE 2 exactly (direction, color, hardness)\n✅ Object colors MUST be color-graded to match IMAGE 2\u0027s palette\n✅ Shadows MUST be cast correctly with right direction and softness\n✅ No visible compositing edges - perfect blend\n✅ Viewer should NOT be able to tell it\u0027s from different photo\nCRITICAL MISTAKES TO AVOID:\n❌ NEVER keep object\u0027s original lighting from IMAGE 1\n❌ NEVER keep object\u0027s original colors unchanged\n❌ NEVER forget to cast shadows onto IMAGE 2\u0027s surfaces\n❌ NEVER ignore IMAGE 2\u0027s light direction\n❌ NEVER make it look like a PNG sticker pasted on\n❌ NEVER create lighting conflicts (e.g., shadows wrong direction)\n\nREMEMBER:\nYou are a PROFESSIONAL COMPOSITOR, not a copy-paste tool.\nThe object must be RELIT, COLOR-GRADED, and SHADOWED to match the target scene.\nFinal result should be INDISTINGUISHABLE from a real photograph.\nOLD STYLE TRANSFER PROMPT (for reference, DON\u0027T use this):\nYou are receiving TWO images:\n\nIMAGE 1 (Style Reference - YOUR PRIMARY GUIDE):\n- This is your MAIN reference for ALL visual aspects\n- COPY AGGRESSIVELY: lighting setup, material types, color palette, texture quality, mood, atmosphere\n- Study this image\u0027s visual language and REPLICATE it completely\n- This shows the TARGET result you must achieve\n\nIMAGE 2 (Original Image - ONLY for composition):\n- Use EXCLUSIVELY for object positions, layout, scene structure\n- IGNORE its colors, materials, lighting, and current style\n- Treat current look as TEMPORARY - will be completely replaced\n- Keep ONLY the composition, everything else changes\n\nYOUR TASK - AGGRESSIVE STYLE TRANSFORMATION:\n1. Keep ONLY composition/layout/objects from IMAGE 2\n2. COMPLETELY REPLACE materials with IMAGE 1\u0027s style:\n   - If IMAGE 1 has metallic materials → make IMAGE 2\u0027s objects metallic\n   - If IMAGE 1 has matte surfaces → make IMAGE 2\u0027s objects matte\n   - If IMAGE 1 has wood texture → apply wood-like materials\n3. COMPLETELY REPLACE lighting with IMAGE 1\u0027s setup:\n   - Match light direction, intensity, color temperature\n   - Copy shadow hardness/softness\n   - Replicate ambient lighting mood\n4. COMPLETELY REPLACE colors with IMAGE 1\u0027s palette:\n   - If IMAGE 1 is warm (orange/red) → make IMAGE 2 warm\n   - If IMAGE 1 is cool (blue/cyan) → make IMAGE 2 cool\n   - Match color saturation and vibrancy\n5. REPLICATE atmosphere and mood:\n   - If IMAGE 1 is dramatic → make IMAGE 2 dramatic\n   - If IMAGE 1 is soft/gentle → make IMAGE 2 soft/gentle\n   - Copy depth, detail level, visual complexity\n\nCRITICAL - BE AGGRESSIVE, NOT CONSERVATIVE:\n❌ DON\u0027T just \u0027slightly adjust\u0027 IMAGE 2\n❌ DON\u0027T preserve IMAGE 2\u0027s current colors/materials\n❌ DON\u0027T be subtle or gentle with changes\n✅ COMPLETELY TRANSFORM to match IMAGE 1\u0027s style\n✅ Think: \u0027IMAGE 1 is the goal, IMAGE 2 is just a layout template\u0027\n✅ If IMAGE 1 is blue but IMAGE 2 is red → make it BLUE\n✅ If IMAGE 1 is dark but IMAGE 2 is bright → make it DARK\n✅ If IMAGE 1 is detailed but IMAGE 2 is simple → add DETAILS\n\nEXAMPLE:\n- IMAGE 1: Warm sunset photo with golden light, soft shadows, rich textures\n- IMAGE 2: Cool blue render with flat lighting\n- YOUR RESULT: Keep IMAGE 2\u0027s objects/layout BUT with:\n  → Golden sunset lighting from IMAGE 1\n  → Warm orange/red colors from IMAGE 1\n  → Soft shadows and rich textures from IMAGE 1\n  → Final looks like IMAGE 1\u0027s style applied to IMAGE 2\u0027s composition\n\nREMEMBER:\nStyle reference (IMAGE 1) = your visual TARGET\nOriginal image (IMAGE 2) = composition template ONLY\nAGGRESSIVELY copy IMAGE 1\u0027s visual style to IMAGE 2\u0027s layout\n"

def editTemplatePlain : String := "You are REFINING and IMPROVING an existing image:\n\nORIGINAL IMAGE:\n- This is the base image you\u0027ll improve\n- Keep main composition, subjects, layout\n\nYOUR TASK:\n1. Understand current image\n2. Apply user\u0027s improvement instructions\n3. Keep overall composition intact\n4. Make changes feel natural and cohesive\n5. Enhance quality while preserving intent\n"

def genTemplateDepthRef : String := "You are receiving TWO images with different purposes:\n\nIMAGE 1 (Style Reference):\n- Use ONLY for: color palette, material textures, lighting mood, surface details\n- DO NOT copy: composition, object placement, camera angle\n- Extract: visual aesthetics, aspect ratio\n\nIMAGE 2 (Depth Map):\n- Black and white gradient representing depth\n- White = closest objects, Black = farthest objects\n- Use for: scene composition, object placement, 3D structure\n- This depth map shows the spatial layout\n\nYOUR TASK:\n1. Understand 3D scene structure from depth map (IMAGE 2)\n2. Apply visual style from reference (IMAGE 1) to that structure\n3. Create photorealistic render combining: reference style + depth map geometry\n4. Match aspect ratio of reference image\n\nUSER PROMPT (THE SUPREME COMMAND):\n- The User Prompt below OVERRIDES everything else for CONTENT decisions.\n- If user says \u0027make it red\u0027, MAKE IT RED, even if Reference is blue.\n- Reference Image is for STYLE only. User Prompt is for CONTENT.\n- CONFLICT RESOLUTION: User Prompt > Reference Image Style > Depth Map\n"

def genTemplateDepthNoRef : String := "You are receiving a DEPTH MAP image:\n\nDEPTH MAP:\n- Black and white gradient representing depth\n- White = closest objects, Black = farthest objects\n- Shows spatial relationships and 3D structure\n\nYOUR TASK:\n1. Interpret the depth map to understand scene geometry\n2. Generate photorealistic 3D render based on this structure\n3. Choose appropriate materials, colors, and lighting\n\nUSER PROMPT (THE SUPREME COMMAND):\n- The User Prompt below is your PRIMARY INSTRUCTION.\n- You MUST follow the user\u0027s description for materials, colors, and lighting.\n- The Depth Map provides the SHAPE, the User Prompt provides the LOOK.\n"

def genTemplateColorRef : String := "You are receiving TWO images:\n\nIMAGE 1 (3D Render - YOUR STRUCTURE SOURCE):\n- This is the GEOMETRY and LAYOUT you must preserve\n- Use this EXCLUSIVELY for object positions and composition\n- IGNORE its bad materials and lighting\n- This defines WHAT is in the scene\n\nIMAGE 2 (Style Reference - YOUR VISUAL GUIDE):\n- This is the STYLE source (materials, lighting, colors)\n- DO NOT copy objects from here, only their \u0027look\u0027\n- Apply this style to the geometry of IMAGE 1\n- This defines HOW the scene looks\n\nUSER PROMPT (THE SUPREME COMMAND):\n- The User Prompt below OVERRIDES everything else for CONTENT decisions.\n- If user says \u0027black background\u0027, MAKE IT BLACK, even if Reference Image has a detailed background.\n- If user says \u0027add neon lights\u0027, ADD THEM, even if Reference Image is dark.\n- Reference Image is for STYLE (how things look), User Prompt is for CONTENT (what things are).\n- CONFLICT RESOLUTION: User Prompt > Reference Image Style > Input Render\n\nYOUR TASK - AGGRESSIVE TRANSFORMATION:\n1. Keep ONLY the composition/layout from IMAGE 1 (Depth/Structure)\n2. COMPLETELY REPLACE materials, lighting, colors with IMAGE 2\u0027s style (UNLESS User Prompt says otherwise)\n3. Make materials look like IMAGE 2 (if metallic there → metallic here)\n4. Match IMAGE 2\u0027s lighting direction, intensity, and color temperature\n5. Use IMAGE 2\u0027s color palette - forget IMAGE 1\u0027s colors\n6. Replicate IMAGE 2\u0027s atmosphere, depth, and mood\n7. Think: \u0027IMAGE 1 is the skeleton, IMAGE 2 is the skin\u0027\n\nCRITICAL - DON\u0027T BE CONSERVATIVE:\n- If IMAGE 1 is blue but IMAGE 2 is warm → make it WARM\n- If IMAGE 1 is flat but IMAGE 2 has depth → add DEPTH\n- If IMAGE 1 is simple but IMAGE 2 is detailed → add DETAILS\n- TRANSFORM aggressively, don\u0027t just \u0027improve\u0027 IMAGE 1\n- STRICTLY FOLLOW IMAGE 1\u0027s GEOMETRY/LAYOUT. Do not add objects from IMAGE 2.\n"

def genTemplateColorNoRef : String := "You are receiving a LOW-QUALITY 3D RENDER that needs COMPLETE VISUAL OVERHAUL:\n\nINPUT IMAGE (ROUGH DRAFT ONLY):\n- Amateur 3D render with placeholder materials and basic lighting\n- Use ONLY for general composition and object positions\n- Colors are WRONG, materials are FAKE, lighting is FLAT\n- This is NOT the target quality - you must COMPLETELY rebuild it\n\nYOUR MISSION - TOTAL TRANSFORMATION:\n1. REPLACE all materials with photorealistic equivalents:\n   - Metal → realistic metal with proper reflections, anisotropy, scratches\n   - Plastic → varied surface finish, subtle color variation, wear\n   - Wood → visible grain, natural color variation, texture depth\n   - Glass → proper refraction, reflections, subtle imperfections\n   - Fabric → weave patterns, soft shadows, natural draping\n\n2. REBUILD lighting from scratch:\n   - Add professional 3-point lighting or natural light sources\n   - Strong shadows with soft edges\n   - Realistic reflections and bounce light\n   - Ambient occlusion in corners and crevices\n   - Color temperature variation (warm/cool balance)\n\n3. REIMAGINE colors:\n   - Input colors are just suggestions - make them BETTER\n   - Add professional color grading\n   - Harmonious palette with contrast\n   - Natural color variation within surfaces\n\n4. ADD depth and atmosphere:\n   - Volumetric lighting effects (god rays, haze)\n   - Atmospheric perspective (depth fog)\n   - Particle effects if appropriate (dust, moisture)\n   - Background depth and detail\n\n5. ENHANCE with imperfections:\n   - Surface scratches, dents, wear patterns\n   - Fingerprints on smooth surfaces\n   - Dust accumulation in corners\n   - Natural aging and weathering\n\nUSER PROMPT (THE SUPREME COMMAND):\n- The User Prompt below is your PRIMARY INSTRUCTION for the transformation.\n- If user says \u0027make it cyberpunk\u0027, use cyberpunk materials/lighting.\n- If user says \u0027add rain\u0027, add rain.\n- The input render provides the COMPOSITION, the User Prompt provides the STYLE/CONTENT.\n\nCRITICAL MINDSET:\n- Think: \u0027This is a SKETCH, not the final image\u0027\n- Your goal: \u0027Student work\u0027 → \u0027Professional portfolio piece\u0027\n- Be BOLD with changes - the input is intentionally low quality\n- Don\u0027t preserve bad materials or flat lighting\n- Make every surface, light, and color DRAMATICALLY better\n- Aim for: movie VFX quality or high-end product photography\n"

/-- Python `str.strip()` (whitespace at both ends; ASCII whitespace,
which covers every input the add-on produces). -/
def pyStrip (s : String) : String :=
  ⟨((s.data.dropWhile Char.isWhitespace).reverse.dropWhile
      Char.isWhitespace).reverse⟩

/-- Template selection of `_build_prompt` (reference x color-mode). -/
def genBasePrompt (has_reference is_color_render : Bool) : String :=
  if !is_color_render then
    if has_reference then genTemplateDepthRef else genTemplateDepthNoRef
  else
    if has_reference then genTemplateColorRef else genTemplateColorNoRef

/-- `GeminiAPI._build_prompt`: select the template, then append the
stripped user text when it is non-empty. -/
def build_prompt (user_prompt : String)
    (has_reference is_color_render : Bool) : String :=
  if pyStrip user_prompt ≠ "" then
    genBasePrompt has_reference is_color_render ++
      "\n\nUSER PROMPT (EXECUTE THIS): " ++ pyStrip user_prompt
  else genBasePrompt has_reference is_color_render

/-- The mask-and-reference edit template, which interpolates the raw
(unstripped) user text near its top. -/
def editMaskRefTemplate (user_prompt : String) : String :=
  editMaskRefPartA ++ user_prompt ++ editMaskRefPartB

/-- Template selection of `_build_edit_prompt` (mask x reference). -/
def editBasePrompt (user_prompt : String)
    (has_mask has_reference : Bool) : String :=
  if has_mask && has_reference then editMaskRefTemplate user_prompt
  else if has_mask then editTemplateMask
  else if has_reference then editTemplateRef
  else editTemplatePlain

/-- `GeminiAPI._build_edit_prompt`: the sentinel returns the fixed
finalize template; otherwise select the template and append the stripped
user text when it is non-empty. -/
def build_edit_prompt (user_prompt : String)
    (has_mask has_reference : Bool) : String :=
  if user_prompt = "[FINALIZE_COMPOSITE]" then editTemplateFinalize
  else if pyStrip user_prompt ≠ "" then
    editBasePrompt user_prompt has_mask has_reference ++
      "\n\nUSER'S EDIT INSTRUCTIONS:\n" ++ pyStrip user_prompt
  else editBasePrompt user_prompt has_mask has_reference

theorem editBasePrompt_indep (u v : String) (hm hr : Bool)
    (hnot : ¬ (hm = true ∧ hr = true)) :
    editBasePrompt u hm hr = editBasePrompt v hm hr := by
  cases hm <;> cases hr <;> simp_all [editBasePrompt]

/-- C6 (amended): both builders are pure template selectors; the
STRIPPED user text (not the literal text) is appended verbatim at the
end when non-empty, after a fixed separator; whitespace-only text yields
the bare template; the edit builder returns a fixed template for the
sentinel "[FINALIZE_COMPOSITE]" and, in the mask+reference case, also
interpolates the raw user text inside the template. -/
theorem c6_prompt_builders_amended :
    (∀ (u : String) (hr ic : Bool), pyStrip u ≠ "" →
      build_prompt u hr ic =
        genBasePrompt hr ic ++ "\n\nUSER PROMPT (EXECUTE THIS): " ++
          pyStrip u ∧
      ∃ p, build_prompt u hr ic = p ++ pyStrip u) ∧
    (∀ (u : String) (hr ic : Bool), pyStrip u = "" →
      build_prompt u hr ic = genBasePrompt hr ic) ∧
    (∀ (u : String) (hm hr : Bool), u ≠ "[FINALIZE_COMPOSITE]" →
      pyStrip u ≠ "" →
      build_edit_prompt u hm hr =
        editBasePrompt u hm hr ++ "\n\nUSER'S EDIT INSTRUCTIONS:\n" ++
          pyStrip u ∧
      ∃ p, build_edit_prompt u hm hr = p ++ pyStrip u) ∧
    (∀ (u : String) (hm hr : Bool), u ≠ "[FINALIZE_COMPOSITE]" →
      pyStrip u = "" →
      build_edit_prompt u hm hr = editBasePrompt u hm hr) ∧
    (∀ hm hr : Bool,
      build_edit_prompt ("[FINALIZE_COMPOSITE]") hm hr =
        editTemplateFinalize) ∧
    (∀ (u v : String) (hm hr : Bool), ¬ (hm = true ∧ hr = true) →
      u ≠ "[FINALIZE_COMPOSITE]" → v ≠ "[FINALIZE_COMPOSITE]" →
      pyStrip u ≠ "" → pyStrip v ≠ "" →
      ∃ p, build_edit_prompt u hm hr = p ++ pyStrip u ∧
        build_edit_prompt v hm hr = p ++ pyStrip v) := by
  refine ⟨?_, ?_, ?_, ?_, ?_, ?_⟩
  · intro u hr ic hu
    unfold build_prompt
    rw [if_pos hu]
    exact ⟨rfl, _, rfl⟩
  · intro u hr ic hu
    unfold build_prompt
    rw [if_neg (by simp [hu])]
  · intro u hm hr hsent hu
    unfold build_edit_prompt
    rw [if_neg hsent, if_pos hu]
    exact ⟨rfl, _, rfl⟩
  · intro u hm hr hsent hu
    unfold build_edit_prompt
    rw [if_neg hsent, if_neg (by simp [hu])]
  · intro hm hr
    unfold build_edit_prompt
    rw [if_pos rfl]
  · intro u v hm hr hnot hsu hsv hu hv
    refine ⟨editBasePrompt u hm hr ++
      "\n\nUSER'S EDIT INSTRUCTIONS:\n", ?_, ?_⟩
    · unfold build_edit_prompt
      rw [if_neg hsu, if_pos hu]
    · unfold build_edit_prompt
      rw [if_neg hsv, if_pos hv, editBasePrompt_indep v u hm hr hnot]

/-- Witness for C6's amended theorem: the generate builder at user text
"x" (no reference, depth mode) appends the text at the end after the
fixed separator. -/
theorem c6_prompt_builders_amended_witness :
    build_prompt ("x") false false =
      genBasePrompt false false ++ "\n\nUSER PROMPT (EXECUTE THIS): " ++
        pyStrip ("x") ∧
    ∃ p, build_prompt ("x") false false = p ++ pyStrip ("x") :=
  c6_prompt_builders_amended.1 ("x") false false (by decide)

set_option maxRecDepth 10000 in
/-- Counterexample to C6 as stated: with user text " x " the literal
text does not appear verbatim at the end of the output — the builder
strips it first (the output ends in the character x, not a space). -/
theorem c6_counterexample :
    ¬ ∃ p : String, build_prompt (" x ") false false = p ++ (" x ") := by
  rintro ⟨p, hp⟩
  have h1 : (build_prompt (" x ") false false).data.reverse.head? =
      some ('x') := by decide
  rw [hp, String.data_append, List.reverse_append,
    show (" x ").data.reverse = [Char.ofNat 32, 'x', Char.ofNat 32]
      from rfl,
    List.cons_append, List.head?_cons] at h1
  exact absurd h1 (by decide)

/- ------------------------------------------------------------------ -/
/- gemini_api.py - attachment ordering of the generate and edit       -/
/- request payloads (SDK contents and REST parts)                     -/
/- ------------------------------------------------------------------ -/

/-- One attachment of a request: the prompt text or an image part
(identified by its payload - a file path for SDK contents, a base64
string for REST parts). -/
inductive ReqPart
  | text (s : String)
  | image (payload : String)
  deriving DecidableEq

/-- Appends an optional image part, mirroring the `if x: parts.append`
pattern. -/
def appendOpt (parts : List ReqPart) : Option String → List ReqPart
  | some payload => parts ++ [ReqPart.image payload]
  | none => parts

/-- Contents built by `_generate_with_sdk` (prompt, then depth image,
then reference if present and loadable). -/
def gemini_generate_sdk_contents (full_prompt depth : String)
    (reference : Option String) : List ReqPart :=
  let contents := [ReqPart.text full_prompt]
  let contents := contents ++ [ReqPart.image depth]
  appendOpt contents reference

/-- Parts built by `_generate_with_rest` (prompt text, depth image
first, reference second when encoded). -/
def gemini_generate_rest_parts (full_prompt depth_b64 : String)
    (reference_b64 : Option String) : List ReqPart :=
  let parts := [ReqPart.text full_prompt]
  let parts := parts ++ [ReqPart.image depth_b64]
  appendOpt parts reference_b64

/-- Contents built by `_edit_with_sdk` (prompt, reference FIRST if
present, original SECOND, mask LAST if present). -/
def gemini_edit_sdk_contents (prompt original : String)
    (reference mask : Option String) : List ReqPart :=
  let contents := [ReqPart.text prompt]
  let contents := appendOpt contents reference
  let contents := contents ++ [ReqPart.image original]
  appendOpt contents mask

/-- Parts built by `_edit_with_rest` (same ordering as the SDK edit
path). -/
def gemini_edit_rest_parts (prompt image_b64 : String)
    (reference_b64 mask_b64 : Option String) : List ReqPart :=
  let parts := [ReqPart.text prompt]
  let parts := appendOpt parts reference_b64
  let parts := parts ++ [ReqPart.image image_b64]
  appendOpt parts mask_b64

/-- An optional image rendered as a zero- or one-element part list. -/
def optPart : Option String → List ReqPart
  | some p => [ReqPart.image p]
  | none => []

/-- C5: on both transport paths, edit attachments are ordered
[prompt, reference (if present), source image, mask (if present)],
while generate attachments are ordered [prompt, structure image,
reference (if present)] - the edit ordering places the reference before
the image being edited, reversed relative to generate. -/
theorem c5_attachment_order :
    (∀ (prompt original : String) (reference mask : Option String),
      gemini_edit_sdk_contents prompt original reference mask =
        [ReqPart.text prompt] ++ optPart reference ++
          [ReqPart.image original] ++ optPart mask) ∧
    (∀ (prompt image_b64 : String) (reference_b64 mask_b64 : Option String),
      gemini_edit_rest_parts prompt image_b64 reference_b64 mask_b64 =
        [ReqPart.text prompt] ++ optPart reference_b64 ++
          [ReqPart.image image_b64] ++ optPart mask_b64) ∧
    (∀ (full_prompt depth : String) (reference : Option String),
      gemini_generate_sdk_contents full_prompt depth reference =
        [ReqPart.text full_prompt] ++ [ReqPart.image depth] ++
          optPart reference) ∧
    (∀ (full_prompt depth_b64 : String) (reference_b64 : Option String),
      gemini_generate_rest_parts full_prompt depth_b64 reference_b64 =
        [ReqPart.text full_prompt] ++ [ReqPart.image depth_b64] ++
          optPart reference_b64) := by
  refine ⟨?_, ?_, ?_, ?_⟩ <;> intros <;>
    (rename_i o1 o2
     cases o1 <;> cases o2 <;> rfl)

/- ------------------------------------------------------------------ -/
/- gemini_api.py - SDK -> REST fallback control flow                  -/
/- ------------------------------------------------------------------ -/

/-- The two kinds of exception distinguished by the fallback handler:
the provider-owned GeminiAPIError (re-raised) and every other
exception (falls back). -/
inductive GemErr
  | api (msg : String)
  | other (msg : String)
  deriving DecidableEq

/-- Bytes plus MIME type of a successful generation. -/
def GenResult : Type := List Nat × String

/-- The full argument tuple of a generate call. -/
structure GenArgs where
  depth_image_path : String
  user_prompt : String
  reference_image_path : Option String
  is_color_render : Bool
  width : Int
  height : Int
  deriving DecidableEq

/-- The full argument tuple of an edit call. -/
structure EditArgs where
  image_path : String
  prompt : String
  mask_path : Option String
  reference_path : Option String
  width : Int
  height : Int
  deriving DecidableEq

/-- `GeminiAPI._generate_with_sdk` control flow, with the SDK attempt
and the REST call as oracles.  The second component records every REST
invocation with its argument tuple.  Mirrors the source: the
PIL-unavailable pre-check forwards all arguments to REST; a
GeminiAPIError raised by the attempt is re-raised; any other exception
falls back to REST, passing depth path, prompt, reference and color
flag but NOT width/height (which therefore take their defaults
1024 x 1024). -/
def generate_image_model (pil_available : Bool)
    (sdk rest : GenArgs → Except GemErr GenResult) (a : GenArgs) :
    Except GemErr GenResult × List GenArgs :=
  if !pil_available then (rest a, [a])
  else
    match sdk a with
    | .ok r => (.ok r, [])
    | .error (.api m) => (.error (.api m), [])
    | .error (.other _) =>
        let fallback : GenArgs := { a with width := 1024, height := 1024 }
        (rest fallback, [fallback])

/-- `GeminiAPI._edit_with_sdk` control flow; the REST fallback omits
width/height, so they take their defaults 0 x 0. -/
def edit_image_model (pil_available : Bool)
    (sdk rest : EditArgs → Except GemErr GenResult) (a : EditArgs) :
    Except GemErr GenResult × List EditArgs :=
  if !pil_available then (rest a, [a])
  else
    match sdk a with
    | .ok r => (.ok r, [])
    | .error (.api m) => (.error (.api m), [])
    | .error (.other _) =>
        let fallback : EditArgs := { a with width := 0, height := 0 }
        (rest fallback, [fallback])

/-- C1 (amended): when the SDK attempt raises anything other than the
provider-owned GeminiAPIError, the REST path is attempted exactly once
with the same image paths, prompt, reference and color-mode flag but
with width/height reset to the defaults (1024 x 1024 for generate,
0 x 0 for edit), and the REST result or error is what the caller sees;
an SDK success performs no REST call; a GeminiAPIError is surfaced
directly with no REST retry. -/
theorem c1_sdk_rest_fallback_amended :
    (∀ (sdk rest : GenArgs → Except GemErr GenResult) (a : GenArgs)
        (m : String), sdk a = .error (.other m) →
      generate_image_model true sdk rest a =
        (rest { a with width := 1024, height := 1024 },
         [{ a with width := 1024, height := 1024 }])) ∧
    (∀ (sdk rest : GenArgs → Except GemErr GenResult) (a : GenArgs)
        (r : GenResult), sdk a = .ok r →
      generate_image_model true sdk rest a = (.ok r, [])) ∧
    (∀ (sdk rest : GenArgs → Except GemErr GenResult) (a : GenArgs)
        (m : String), sdk a = .error (.api m) →
      generate_image_model true sdk rest a = (.error (.api m), [])) ∧
    (∀ (sdk rest : EditArgs → Except GemErr GenResult) (a : EditArgs)
        (m : String), sdk a = .error (.other m) →
      edit_image_model true sdk rest a =
        (rest { a with width := 0, height := 0 },
         [{ a with width := 0, height := 0 }])) ∧
    (∀ (sdk rest : EditArgs → Except GemErr GenResult) (a : EditArgs)
        (r : GenResult), sdk a = .ok r →
      edit_image_model true sdk rest a = (.ok r, [])) ∧
    (∀ (sdk rest : EditArgs → Except GemErr GenResult) (a : EditArgs)
        (m : String), sdk a = .error (.api m) →
      edit_image_model true sdk rest a = (.error (.api m), [])) := by
  refine ⟨?_, ?_, ?_, ?_, ?_, ?_⟩ <;>
    intro sdk rest a x h <;>
    simp only [generate_image_model, edit_image_model, Bool.not_true,
      Bool.false_eq_true, if_false, h]

/-- Witness for C1's amended theorem at a concrete call: an SDK failure
with a plain exception triggers exactly one REST call with defaulted
resolution, whose result is returned. -/
theorem c1_sdk_rest_fallback_amended_witness :
    generate_image_model true
        (fun _ => .error (.other ("boom")))
        (fun _ => .ok ([1], "image/png"))
        ⟨"d.png", "p", none, false, 2048, 2048⟩ =
      (.ok ([1], "image/png"),
       [⟨"d.png", "p", none, false, 1024, 1024⟩]) := by
  rw [c1_sdk_rest_fallback_amended.1
    (fun _ => .error (.other ("boom")))
    (fun _ => .ok ([1], "image/png"))
    ⟨"d.png", "p", none, false, 2048, 2048⟩ ("boom") rfl]

/-- Counterexample to C1 as stated: a structurally unexpected response
makes the SDK path raise GeminiAPIError, which is surfaced to the
caller with ZERO REST attempts; and when the REST fallback does happen,
it does not preserve width/height (2048 x 2048 becomes 1024 x 1024). -/
theorem c1_counterexample :
    (generate_image_model true
        (fun _ => .error (.api ("No image generated")))
        (fun _ => .ok ([1], "image/png"))
        ⟨"d.png", "p", none, false, 512, 512⟩).2 = [] ∧
    (generate_image_model true
        (fun _ => .error (.api ("No image generated")))
        (fun _ => .ok ([1], "image/png"))
        ⟨"d.png", "p", none, false, 512, 512⟩).1 =
      .error (.api ("No image generated")) ∧
    (generate_image_model true
        (fun _ => .error (.other ("boom")))
        (fun _ => .ok ([1], "image/png"))
        ⟨"d.png", "p", none, false, 2048, 2048⟩).2 ≠
      [⟨"d.png", "p", none, false, 2048, 2048⟩] := by
  refine ⟨rfl, rfl, ?_⟩
  intro h
  exact absurd h (by decide)

/- ------------------------------------------------------------------ -/
/- threading_utils.py - APIThread.run cooperative cancellation        -/
/- ------------------------------------------------------------------ -/

/-- Observable outcome of one `APIThread.run` execution. -/
structure RunOutcome where
  network_called : Bool
  result_loaded : Bool
  errored : Bool
  deriving DecidableEq

/-- `APIThread.run`, modelled over the values the stop flag is observed
to hold at its two poll points (before the API call, and after the API
call returns) and over the API call result.  The run checks the stop
flag, issues the network call, re-checks the stop flag, and only then
delivers the result via load_result_image; an exception from the call
is converted to an error status. -/
def APIThread_run (stop_before_call stop_after_call : Bool)
    (api_result : Except String (List Nat)) : RunOutcome :=
  if stop_before_call then
    { network_called := false, result_loaded := false, errored := false }
  else
    match api_result with
    | .error _ =>
        { network_called := true, result_loaded := false, errored := true }
    | .ok _ =>
        if stop_after_call then
          { network_called := true, result_loaded := false,
            errored := false }
        else
          { network_called := true, result_loaded := true,
            errored := false }

/-- C2 (amended): cancellation requested before the network call means
the worker returns without issuing it; but cancellation observed at the
post-call poll point DISCARDS an already-completed successful result
(run returns without loading it) - the result is delivered only when
the stop flag is still clear after the call returns. -/
theorem c2_cancellation_amended :
    (∀ (s2 : Bool) (r : Except String (List Nat)),
      APIThread_run true s2 r =
        { network_called := false, result_loaded := false,
          errored := false }) ∧
    (∀ d : List Nat,
      APIThread_run false true (.ok d) =
        { network_called := true, result_loaded := false,
          errored := false }) ∧
    (∀ d : List Nat,
      APIThread_run false false (.ok d) =
        { network_called := true, result_loaded := true,
          errored := false }) :=
  ⟨fun _ _ => rfl, fun _ => rfl, fun _ => rfl⟩

/-- Counterexample to C2 as stated: with cancellation requested after
the network call returned successfully but before delivery, the result
is NOT loaded. -/
theorem c2_counterexample :
    (APIThread_run false true (.ok [7])).result_loaded = false :=
  rfl

/- ------------------------------------------------------------------ -/
/- providers.py - response JSON model and GPTGod response parsing     -/
/- ------------------------------------------------------------------ -/

/-- A JSON value, as produced by `response.json()`. -/
inductive Json
  | null
  | bool (b : Bool)
  | num (n : Int)
  | str (s : String)
  | arr (xs : List Json)
  | obj (fields : List (String × Json))

/-- Dictionary lookup (`result[k]` / `k in result`): first matching key
of an object, `none` otherwise. -/
def Json.get? : Json → String → Option Json
  | .obj fields, k => (fields.find? (fun p => p.1 == k)).map (fun p => p.2)
  | _, _ => none

/-- Python truthiness of a JSON value. -/
def Json.truthy : Json → Bool
  | .null => false
  | .bool b => b
  | .num n => !(n == 0)
  | .str s => !(s == "")
  | .arr xs => !xs.isEmpty
  | .obj fs => !fs.isEmpty

/-- Python `str.startswith`. -/
def pyStartsWith (s pat : String) : Bool :=
  pat.data.isPrefixOf s.data

/-- Python `s.split(",", 1)` when it yields two pieces (header, rest);
`none` when the string holds no comma, in which case the destructuring
assignment in the source raises. -/
def splitFirstComma (s : String) : Option (String × String) :=
  let pre := s.data.takeWhile (fun c => !(c == Char.ofNat 44))
  let rest := s.data.drop pre.length
  match rest with
  | [] => none
  | _ :: after => some (⟨pre⟩, ⟨after⟩)

/-- Case-insensitive literal prefix match (the pattern is given in
lower case), for the IGNORECASE regex. -/
def ciPrefix (pat l : List Char) : Bool :=
  pat.isPrefixOf ((l.take pat.length).map Char.toLower)

/-- Match one of the alternatives `png|jpg|jpeg|webp|gif` (in this
order, case-insensitively) at the head of the list, returning the
matched length. -/
def extLenAt (l : List Char) : Option Nat :=
  if ciPrefix ("png").data l then some 3
  else if ciPrefix ("jpg").data l then some 3
  else if ciPrefix ("jpeg").data l then some 4
  else if ciPrefix ("webp").data l then some 4
  else if ciPrefix ("gif").data l then some 3
  else none

/-- Backtracking of the greedy `[^\s]+` of the bare-URL regex: try dot
positions from `j` downward (but not below `minPos`), returning the end
position of `\.(png|jpg|jpeg|webp|gif)` at the first (largest) position
that matches. -/
def dotSearch (orig : List Char) (minPos : Nat) : Nat → Option Nat
  | 0 => none
  | j + 1 =>
    if j + 1 < minPos then none
    else
      match orig.drop (j + 1) with
      | c :: after =>
          if c == Char.ofNat 46 then
            match extLenAt after with
            | some k => some (j + 1 + 1 + k)
            | none => dotSearch orig minPos j
          else dotSearch orig minPos j
      | [] => dotSearch orig minPos j

/-- `re.search(r"(https?://[^\s]+\.(png|jpg|jpeg|webp|gif))", s,
re.IGNORECASE)`: leftmost start position; at each start, the scheme,
then a greedy non-whitespace run backtracked until a dot-extension
suffix matches; the returned capture runs from the scheme to the end of
the extension. -/
def bareUrlScan : List Char → Option String
  | [] => none
  | c :: rest =>
    let l := c :: rest
    let scheme : Option Nat :=
      if ciPrefix ("https://").data l then some 8
      else if ciPrefix ("http://").data l then some 7
      else none
    match scheme with
    | some n =>
        let run := l.takeWhile (fun ch => !ch.isWhitespace)
        match dotSearch l (n + 1) (run.length - 1) with
        | some e => some ⟨l.take e⟩
        | none => bareUrlScan rest
    | none => bareUrlScan rest

/-- Parse `https?://[^)]+\)` at the head of the list (the tail of the
markdown image regex), returning the captured URL. -/
def parseUrlParen (l : List Char) : Option String :=
  let n : Option Nat :=
    if ("https://").data.isPrefixOf l then some 8
    else if ("http://").data.isPrefixOf l then some 7
    else none
  match n with
  | none => none
  | some schemeLen =>
    let seg := l.takeWhile (fun c => !(c == Char.ofNat 41))
    if seg.length ≤ schemeLen then none
    else
      match l.drop seg.length with
      | [] => none
      | _ :: _ => some ⟨seg⟩

/-- The lazy `.*?\]\(url\)` region of the markdown regex: scan forward
(never across a newline, which `.` does not match), trying each
`](`-candidate in order. -/
def mdBody : List Char → Option String
  | [] => none
  | c :: rest =>
    if c == Char.ofNat 10 then none
    else if c == Char.ofNat 93 then
      match rest with
      | paren :: after =>
          if paren == Char.ofNat 40 then
            match parseUrlParen after with
            | some u => some u
            | none => mdBody rest
          else mdBody rest
      | [] => none
    else mdBody rest

/-- `re.search(r"!\[.*?\]\((https?://[^)]+)\)", s)`: leftmost `![`,
then the lazy body. -/
def mdScan : List Char → Option String
  | [] => none
  | c :: rest =>
    if c == Char.ofNat 33 then
      match rest with
      | b :: body =>
          if b == Char.ofNat 91 then
            match mdBody body with
            | some u => some u
            | none => mdScan rest
          else mdScan rest
      | [] => none
    else mdScan rest

/-- Source of an image found in a GPTGod response: a remote URL or the
base64 payload of a data URL. -/
inductive ImgSrc
  | url (u : String)
  | dataUrl (payload : String)
  deriving DecidableEq

/-- Strategy 1: a top-level string `image` field holding an http(s)
URL.  A present non-string value makes `.startswith` raise. -/
def strat_image (result : Json) : Except Unit (Option String) :=
  match result.get? ("image") with
  | none => .ok none
  | some (.str u) =>
      if pyStartsWith u ("http://") || pyStartsWith u ("https://") then
        .ok (some u)
      else .ok none
  | some _ => .error ()

/-- Strategy 2: a truthy `images` value whose first element is a string
data-URL or http(s) URL.  A non-string first element falls through; a
data-URL without a comma makes the destructuring raise; indexing a
truthy non-sequence raises (a truthy string indexes to its one-char
head, which matches neither prefix). -/
def strat_images (result : Json) : Except Unit (Option ImgSrc) :=
  match result.get? ("images") with
  | none => .ok none
  | some v =>
    if !v.truthy then .ok none
    else
      match v with
      | .arr [] => .ok none
      | .arr (x :: _) =>
          (match x with
           | .str u =>
               if pyStartsWith u ("data:image") then
                 match splitFirstComma u with
                 | some (_, payload) => .ok (some (.dataUrl payload))
                 | none => .error ()
               else if pyStartsWith u ("http://") ||
                   pyStartsWith u ("https://") then
                 .ok (some (.url u))
               else .ok none
           | _ => .ok none)
      | .str _ => .ok none
      | _ => .error ()

/-- Strategy 3: a truthy `data` list whose first element is a dict with
a string http(s) `url`.  `"url" in x` on a string tests substring
membership (a hit then raises on string indexing); on other non-dict
values it raises. -/
def strat_data (result : Json) : Except Unit (Option String) :=
  match result.get? ("data") with
  | none => .ok none
  | some v =>
    if !v.truthy then .ok none
    else
      match v with
      | .arr [] => .ok none
      | .arr (x :: _) =>
          (match x with
           | .obj _ =>
               match x.get? ("url") with
               | none => .ok none
               | some (.str u) =>
                   if pyStartsWith u ("http://") ||
                       pyStartsWith u ("https://") then
                     .ok (some u)
                   else .ok none
               | some _ => .error ()
           | .str s =>
               if occursB ("url").data s.data then .error ()
               else .ok none
           | _ => .error ())
      | _ => .ok none

/-- Common to strategies 4 and 5: extract
`result["choices"][0].get("message", {}).get("content", "")` when the
`choices` value is truthy; `none` when `choices` is absent, falsy or
the content is not a string; an exception when `[0]` or `.get` is
applied to a value that does not support it. -/
def chatContent (result : Json) : Except Unit (Option String) :=
  match result.get? ("choices") with
  | none => .ok none
  | some v =>
    if !v.truthy then .ok none
    else
      match v with
      | .arr [] => .ok none
      | .arr (x :: _) =>
          (match x with
           | .obj _ =>
               match (x.get? ("message")).getD (.obj []) with
               | .obj mf =>
                   (match (Json.obj mf).get? ("content") with
                    | some (.str c) => .ok (some c)
                    | some _ => .ok none
                    | none => .ok (some ""))
               | _ => .error ()
           | _ => .error ())
      | _ => .error ()

/-- Strategy 4: the markdown image link regex over the chat content. -/
def strat_markdown (content : String) : Option String :=
  mdScan content.data

/-- Strategy 5: the bare image-URL regex over the chat content. -/
def strat_bare (content : String) : Option String :=
  bareUrlScan content.data

/-- Download / decode / `_ensure_png` pipeline applied to a found image
source; every provider return site pairs the bytes with the literal
"image/png". -/
def finishSrc (download b64 : String → List Nat)
    (png : List Nat → List Nat) : ImgSrc → List Nat × String
  | .url u => (png (download u), "image/png")
  | .dataUrl p => (png (b64 p), "image/png")

/-- `GPTGodProvider.generate_image` / `edit_image` response parsing
(the two bodies are identical): the five strategies in order, stopping
at the first that yields an image; the final error is raised only after
all five fail.  `download`, `b64` and `png` stand for
`_download_image`, `base64.b64decode` and `_ensure_png`. -/
def GPTGod_parse_response (download b64 : String → List Nat)
    (png : List Nat → List Nat) (result : Json) :
    Except String (List Nat × String) :=
  match strat_image result with
  | .error _ => .error ("GPTGod request handling raised")
  | .ok (some u) => .ok (finishSrc download b64 png (.url u))
  | .ok none =>
    match strat_images result with
    | .error _ => .error ("GPTGod request handling raised")
    | .ok (some src) => .ok (finishSrc download b64 png src)
    | .ok none =>
      match strat_data result with
      | .error _ => .error ("GPTGod request handling raised")
      | .ok (some u) => .ok (finishSrc download b64 png (.url u))
      | .ok none =>
        match chatContent result with
        | .error _ => .error ("GPTGod request handling raised")
        | .ok none => .error ("No image found in GPTGod response")
        | .ok (some c) =>
          match strat_markdown c with
          | some u => .ok (finishSrc download b64 png (.url u))
          | none =>
            match strat_bare c with
            | some u => .ok (finishSrc download b64 png (.url u))
            | none => .error ("No image found in GPTGod response")

/-- C3: the GPTGod parser attempts exactly the five strategies in the
fixed order (1) top-level `image` URL, (2) `images` array, (3)
OpenAI-style data[0].url, (4) markdown image link in chat content, (5)
bare image URL in chat content; it stops at the first strategy that
yields an image and raises only after all five fail. -/
theorem c3_gptgod_parse_order (download b64 : String → List Nat)
    (png : List Nat → List Nat) (result : Json) :
    (∀ u, strat_image result = .ok (some u) →
      GPTGod_parse_response download b64 png result =
        .ok (png (download u), "image/png")) ∧
    (∀ src, strat_image result = .ok none →
      strat_images result = .ok (some src) →
      GPTGod_parse_response download b64 png result =
        .ok (finishSrc download b64 png src)) ∧
    (∀ u, strat_image result = .ok none →
      strat_images result = .ok none →
      strat_data result = .ok (some u) →
      GPTGod_parse_response download b64 png result =
        .ok (png (download u), "image/png")) ∧
    (∀ c u, strat_image result = .ok none →
      strat_images result = .ok none →
      strat_data result = .ok none →
      chatContent result = .ok (some c) →
      strat_markdown c = some u →
      GPTGod_parse_response download b64 png result =
        .ok (png (download u), "image/png")) ∧
    (∀ c u, strat_image result = .ok none →
      strat_images result = .ok none →
      strat_data result = .ok none →
      chatContent result = .ok (some c) →
      strat_markdown c = none →
      strat_bare c = some u →
      GPTGod_parse_response download b64 png result =
        .ok (png (download u), "image/png")) ∧
    (∀ c, strat_image result = .ok none →
      strat_images result = .ok none →
      strat_data result = .ok none →
      chatContent result = .ok (some c) →
      strat_markdown c = none →
      strat_bare c = none →
      GPTGod_parse_response download b64 png result =
        .error ("No image found in GPTGod response")) ∧
    (strat_image result = .ok none →
      strat_images result = .ok none →
      strat_data result = .ok none →
      chatContent result = .ok none →
      GPTGod_parse_response download b64 png result =
        .error ("No image found in GPTGod response")) := by
  refine ⟨?_, ?_, ?_, ?_, ?_, ?_, ?_⟩
  · intro u h1
    simp only [GPTGod_parse_response, h1, finishSrc]
  · intro src h1 h2
    simp only [GPTGod_parse_response, h1, h2]
  · intro u h1 h2 h3
    simp only [GPTGod_parse_response, h1, h2, h3, finishSrc]
  · intro c u h1 h2 h3 h4 h5
    simp only [GPTGod_parse_response, h1, h2, h3, h4, h5, finishSrc]
  · intro c u h1 h2 h3 h4 h5 h6
    simp only [GPTGod_parse_response, h1, h2, h3, h4, h5, h6, finishSrc]
  · intro c h1 h2 h3 h4 h5 h6
    simp only [GPTGod_parse_response, h1, h2, h3, h4, h5, h6]
  · intro h1 h2 h3 h4
    simp only [GPTGod_parse_response, h1, h2, h3, h4]

/-- Witness for C3 at a concrete response in which strategies 1 and 2
are present but fail, and strategy 3 produces the image. -/
theorem c3_gptgod_parse_order_witness :
    GPTGod_parse_response (fun _ => [1]) (fun _ => [2]) (fun d => d)
        (.obj [("image", .str ("ftp://e/i.png")),
               ("images", .arr [.num 3]),
               ("data", .arr [.obj [("url", .str ("http://e/i.png"))]])]) =
      .ok ([1], "image/png") :=
  (c3_gptgod_parse_order (fun _ => [1]) (fun _ => [2]) (fun d => d)
      (.obj [("image", .str ("ftp://e/i.png")),
             ("images", .arr [.num 3]),
             ("data", .arr [.obj [("url", .str ("http://e/i.png"))]])])
    ).2.2.1 ("http://e/i.png") rfl rfl rfl

/- ------------------------------------------------------------------ -/
/- Success-path MIME types of the remaining providers (C4)            -/
/- ------------------------------------------------------------------ -/

/-- `YunwuProvider.generate_image` / `edit_image` response scanning:
first part carrying inlineData/inline_data with a data/bytes field is
base64-decoded and returned with the literal "image/png".  (A non-string
data value would make b64decode raise; modelled as no result.) -/
def yunwu_find_image (b64 : String → List Nat) :
    List Json → Option (List Nat × String)
  | [] => none
  | part :: rest =>
    if (part.get? ("inlineData")).isSome ∨
        (part.get? ("inline_data")).isSome then
      let inline_key := if (part.get? ("inlineData")).isSome
        then "inlineData" else "inline_data"
      let inline := (part.get? inline_key).getD .null
      let data_key := if (inline.get? ("data")).isSome
        then "data" else "bytes"
      match inline.get? data_key with
      | some (.str s) => some (b64 s, "image/png")
      | some _ => none
      | none => yunwu_find_image b64 rest
    else yunwu_find_image b64 rest

/-- `OpenRouterProvider` response scanning over `message["images"]`:
data-URLs are decoded, http(s) URLs downloaded, both `_ensure_png`-ed
and returned with the literal "image/png".  (A data URL without a comma
makes the destructuring raise; modelled as no result.) -/
def openrouter_scan_images (download b64 : String → List Nat)
    (png : List Nat → List Nat) : List Json → Option (List Nat × String)
  | [] => none
  | img :: rest =>
    let image_url : String :=
      match ((img.get? ("image_url")).getD (.obj [])).get? ("url") with
      | some (.str u) => u
      | _ => ""
    if pyStartsWith image_url ("data:image") then
      match splitFirstComma image_url with
      | some (_, payload) => some (png (b64 payload), "image/png")
      | none => none
    else if pyStartsWith image_url ("http://") ∨
        pyStartsWith image_url ("https://") then
      some (png (download image_url), "image/png")
    else openrouter_scan_images download b64 png rest

/-- `GeminiAPI._generate_with_sdk` / `_edit_with_sdk` response
scanning: the first part with inline data is re-encoded to PNG and
returned with the literal "image/png" (parts are abstracted to their
optional inline payload). -/
def gemini_sdk_find_image (toPng : List Nat → List Nat) :
    List (Option (List Nat)) → Option (List Nat × String)
  | [] => none
  | some data :: _ => some (toPng data, "image/png")
  | none :: rest => gemini_sdk_find_image toPng rest

/-- In `_generate_with_rest`, the returned MIME type is read from the
response (`mime_type` then `mimeType`), defaulting to "image/jpeg". -/
def geminiRestMime (inline : Json) : Json :=
  (inline.get? ("mime_type")).getD
    ((inline.get? ("mimeType")).getD (.str ("image/jpeg")))

/-- `GeminiAPI._generate_with_rest` response scanning: the first part
with a non-empty data/bytes field under inline_data/inlineData is
base64-decoded and returned together with the upstream-declared MIME
type. -/
def gemini_rest_find_image (b64 : String → List Nat) :
    List Json → Option (List Nat × Json)
  | [] => none
  | part :: rest =>
    let inline_key : Option String :=
      if (part.get? ("inline_data")).isSome then some "inline_data"
      else if (part.get? ("inlineData")).isSome then some "inlineData"
      else none
    match inline_key with
    | none => gemini_rest_find_image b64 rest
    | some k =>
      let inline := (part.get? k).getD .null
      let data_key : Option String :=
        if (inline.get? ("data")).isSome then some "data"
        else if (inline.get? ("bytes")).isSome then some "bytes"
        else none
      match data_key with
      | none => gemini_rest_find_image b64 rest
      | some dk =>
        match inline.get? dk with
        | some (.str s) =>
            if 0 < s.data.length then some (b64 s, geminiRestMime inline)
            else gemini_rest_find_image b64 rest
        | _ => gemini_rest_find_image b64 rest

/-- C4 (amended): every successful result of the Yunwu, OpenRouter and
GPTGod providers and of the google SDK paths carries the MIME type
"image/png".  (The google REST paths instead pass through the
upstream-declared MIME type - see `c4_counterexample`.) -/
theorem c4_mime_png_amended :
    (∀ (b64 : String → List Nat) (parts : List Json) (d : List Nat)
        (m : String), yunwu_find_image b64 parts = some (d, m) →
      m = "image/png") ∧
    (∀ (download b64 : String → List Nat) (png : List Nat → List Nat)
        (imgs : List Json) (d : List Nat) (m : String),
      openrouter_scan_images download b64 png imgs = some (d, m) →
      m = "image/png") ∧
    (∀ (download b64 : String → List Nat) (png : List Nat → List Nat)
        (result : Json) (d : List Nat) (m : String),
      GPTGod_parse_response download b64 png result = .ok (d, m) →
      m = "image/png") ∧
    (∀ (toPng : List Nat → List Nat) (parts : List (Option (List Nat)))
        (d : List Nat) (m : String),
      gemini_sdk_find_image toPng parts = some (d, m) →
      m = "image/png") := by
  refine ⟨?_, ?_, ?_, ?_⟩
  · intro b64 parts
    induction parts with
    | nil => intro d m h; exact absurd h (by simp [yunwu_find_image])
    | cons p rest ih =>
        intro d m h
        simp only [yunwu_find_image] at h
        repeat' split at h
        all_goals
          first
          | (simp only [Option.some.injEq, Prod.mk.injEq] at h
             exact h.2.symm)
          | exact absurd h (by simp)
          | exact ih d m h
  · intro download b64 png imgs
    induction imgs with
    | nil =>
        intro d m h
        exact absurd h (by simp [openrouter_scan_images])
    | cons p rest ih =>
        intro d m h
        simp only [openrouter_scan_images] at h
        repeat' split at h
        all_goals
          first
          | (simp only [Option.some.injEq, Prod.mk.injEq] at h
             exact h.2.symm)
          | exact absurd h (by simp)
          | exact ih d m h
  · intro download b64 png result d m h
    have hfin : ∀ src, (finishSrc download b64 png src).2 = "image/png" := by
      intro src; cases src <;> rfl
    rw [GPTGod_parse_response] at h
    repeat' split at h
    all_goals
      first
      | (simp only [Except.ok.injEq] at h
         have h3 := congrArg Prod.snd h
         rw [hfin _] at h3
         exact h3.symm)
      | simp at h
  · intro toPng parts
    induction parts with
    | nil =>
        intro d m h
        exact absurd h (by simp [gemini_sdk_find_image])
    | cons p rest ih =>
        intro d m h
        cases p with
        | some data =>
            rw [gemini_sdk_find_image] at h
            simp only [Option.some.injEq, Prod.mk.injEq] at h
            exact h.2.symm
        | none =>
            rw [gemini_sdk_find_image] at h
            exact ih d m h

/-- Witness for the amended C4 theorem: a concrete Yunwu response
parses successfully and, by the theorem, its MIME type is
"image/png". -/
theorem c4_mime_png_amended_witness :
    yunwu_find_image (fun _ => [9])
        [.obj [("inlineData", .obj [("data", .str ("AA"))])]] =
      some ([9], "image/png") ∧
    (("image/png") : String) = "image/png" :=
  ⟨rfl,
   c4_mime_png_amended.1 (fun _ => [9])
     [.obj [("inlineData", .obj [("data", .str ("AA"))])]] [9]
     ("image/png") rfl⟩

/-- Counterexample to C4 as stated: the google REST generate path
returns the upstream-declared MIME type - here "image/jpeg" - rather
than normalising to "image/png". -/
theorem c4_counterexample :
    gemini_rest_find_image (fun _ => [0])
        [.obj [("inlineData",
          .obj [("data", .str ("AAA")),
                ("mimeType", .str ("image/jpeg"))])]] =
      some ([0], .str ("image/jpeg")) ∧
    Json.str ("image/jpeg") ≠ Json.str ("image/png") := by
  refine ⟨rfl, ?_⟩
  intro h
  injection h with h2
  exact absurd h2 (by decide)
